import Mathlib

/-!
Shallow embedding of the warehouse-management backend (routes file plus
`server/storage.ts` / `shared/schema.ts`) and proofs of the specification
claims about it.

The in-memory store (`MemStorage`) keeps one JavaScript `Map` per entity,
keyed by monotonically assigned numeric ids.  A JavaScript `Map` preserves
insertion order, `set` on an existing key overwrites it in place, and
iteration (`Array.from(map.values())`) walks entries in insertion order.
We embed each map as an association list `List (Nat × α)` with
order-preserving `mapGet` / `mapSet` / `mapValues`.

Timestamps (`new Date()`) are modelled as an abstract `Nat` clock value
passed to the operations that stamp records; `bcrypt` hashing is modelled
as an abstract `hash : String → String` parameter.
-/

namespace Wms

/-- Lookup in an association list: the value of the first entry whose key
matches, as `Map.get` returns for the unique entry of the key. -/
def mapGet (m : List (Nat × α)) (k : Nat) : Option α :=
  match m with
  | [] => none
  | (k', v) :: rest => if k' = k then some v else mapGet rest k

/-- Insertion-order-preserving write, as JavaScript `Map.set`: replace the
entry in place when the key is present, append at the end otherwise. -/
def mapSet (m : List (Nat × α)) (k : Nat) (v : α) : List (Nat × α) :=
  match m with
  | [] => [(k, v)]
  | (k', v') :: rest => if k' = k then (k, v) :: rest else (k', v') :: mapSet rest k v

/-- Values of the map in insertion order, as `Array.from(map.values())`. -/
def mapValues (m : List (Nat × α)) : List α :=
  m.map Prod.snd

@[simp]
theorem mapGet_nil (k : Nat) : mapGet ([] : List (Nat × α)) k = none := rfl

@[simp]
theorem mapGet_cons (k' k : Nat) (v : α) (rest : List (Nat × α)) :
    mapGet ((k', v) :: rest) k = if k' = k then some v else mapGet rest k := rfl

@[simp]
theorem mapValues_nil : mapValues ([] : List (Nat × α)) = [] := rfl

@[simp]
theorem mapValues_cons (p : Nat × α) (rest : List (Nat × α)) :
    mapValues (p :: rest) = p.2 :: mapValues rest := rfl

/-- Reading back the key just written yields the written value. -/
theorem mapGet_mapSet_self (m : List (Nat × α)) (k : Nat) (v : α) :
    mapGet (mapSet m k v) k = some v := by
  induction m with
  | nil => simp [mapSet, mapGet]
  | cons p rest ih =>
    obtain ⟨k', v'⟩ := p
    by_cases h : k' = k <;> simp [mapSet, mapGet, h, ih]

/-- Writing to an existing key does not change the number of entries. -/
theorem length_mapSet_of_mem (m : List (Nat × α)) (k : Nat) (v : α)
    (h : k ∈ m.map Prod.fst) : (mapSet m k v).length = m.length := by
  induction m with
  | nil => simp at h
  | cons p rest ih =>
    obtain ⟨k', v'⟩ := p
    by_cases hk : k' = k
    · simp [mapSet, hk]
    · simp only [List.map_cons, List.mem_cons] at h
      rcases h with h | h
      · exact absurd h.symm hk
      · simp [mapSet, hk, ih h]

/-- Every value returned by `mapGet` occurs among the map's values. -/
theorem mapGet_mem_mapValues {m : List (Nat × α)} {k : Nat} {v : α}
    (h : mapGet m k = some v) : v ∈ mapValues m := by
  induction m with
  | nil => simp [mapGet] at h
  | cons p rest ih =>
    obtain ⟨k', v'⟩ := p
    by_cases hk : k' = k
    · simp [mapGet, hk] at h
      simp [mapValues, h]
    · simp [mapGet, hk] at h
      simpa [mapValues] using Or.inr (by simpa [mapValues] using ih h)

/-! ## Permission gate

`hasPermission` embeds the middleware of the routes file: an
unauthenticated request (no session, or no user attached) is answered 401;
a principal whose resolved role is missing, or whose role carries no
permissions array, is answered 403; otherwise the request is allowed
exactly when the role's permission list contains `"all"` or the required
permission string, and answered 403 otherwise. -/

/-- Role shape as the gate sees it (`user.role` is untyped in the source,
so the permissions array itself may be absent). -/
structure GateRole where
  permissions : Option (List String)
  deriving DecidableEq

/-- Principal attached to the request by the session middleware. -/
structure SessionUser where
  role : Option GateRole
  deriving DecidableEq

/-- Outcome of the `hasPermission` middleware. -/
inductive GateResult where
  | allowed
  | unauthorized
  | forbidden
  deriving DecidableEq

/-- HTTP status the middleware responds with when it does not call `next`. -/
def GateResult.status : GateResult → Option Nat
  | .allowed => none
  | .unauthorized => some 401
  | .forbidden => some 403

/-- Embedding of the `hasPermission(permission)` middleware. -/
def hasPermission (permission : String) (isAuth : Bool) (user : Option SessionUser) :
    GateResult :=
  if !isAuth || user.isNone then
    .unauthorized
  else
    match user with
    | none => .unauthorized
    | some u =>
      match u.role with
      | none => .forbidden
      | some role =>
        match role.permissions with
        | none => .forbidden
        | some perms =>
          if perms.contains "all" || perms.contains permission then
            .allowed
          else
            .forbidden

/-! ## Data model

Record structures follow `shared/schema.ts`: `serial` primary keys and
foreign ids are `Nat`, `integer` quantities are `Int`, `text`/`json`
payload fields are `String` or dedicated structures, nullable columns are
`Option`s, `real` columns are `Float`s, `timestamp` columns are a `Nat`
clock value. -/

/-- Dimensions json payload `{length, width, height}`. -/
structure Dimensions where
  length : Float
  width : Float
  height : Float

/-- Supplier contact json payload. -/
structure ContactInfo where
  email : Option String
  phone : Option String
  address : Option String
  deriving DecidableEq

/-- Order shipping-address json payload. -/
structure ShippingAddress where
  address1 : String
  address2 : Option String
  city : String
  state : String
  zipCode : String
  country : String
  deriving DecidableEq

/-- Row of the `organizations` table. -/
structure Organization where
  id : Nat
  name : String
  description : Option String
  isActive : Bool
  parentId : Option Nat
  deriving DecidableEq

/-- Row of the `roles` table. -/
structure Role where
  id : Nat
  name : String
  description : Option String
  permissions : List String
  scope : String
  deriving DecidableEq

/-- Row of the `users` table. -/
structure User where
  id : Nat
  username : String
  password : String
  email : String
  fullName : String
  isActive : Bool
  organizationId : Option Nat
  roleId : Option Nat
  deriving DecidableEq

/-- Row of the `warehouses` table. -/
structure Warehouse where
  id : Nat
  name : String
  code : String
  address : Option String
  organizationId : Nat
  deriving DecidableEq

/-- Row of the `zones` table. -/
structure Zone where
  id : Nat
  name : String
  code : String
  warehouseId : Nat
  deriving DecidableEq

/-- Row of the `bin_types` table. -/
structure BinType where
  id : Nat
  name : String
  maxWeight : Option Float
  maxVolume : Option Float
  dimensions : Option Dimensions
  organizationId : Nat

/-- Row of the `bins` table. -/
structure Bin where
  id : Nat
  name : String
  code : String
  zoneId : Nat
  binTypeId : Option Nat
  isActive : Bool
  deriving DecidableEq

/-- Row of the `categories` table. -/
structure Category where
  id : Nat
  name : String
  description : Option String
  organizationId : Nat
  deriving DecidableEq

/-- Row of the `suppliers` table. -/
structure Supplier where
  id : Nat
  name : String
  code : String
  contactInfo : Option ContactInfo
  organizationId : Nat
  deriving DecidableEq

/-- Row of the `items` table. -/
structure Item where
  id : Nat
  sku : String
  name : String
  description : Option String
  barcode : Option String
  categoryId : Option Nat
  supplierId : Option Nat
  dimensions : Option Dimensions
  weight : Option Float
  reorderPoint : Option Int
  reorderQuantity : Option Int
  notes : Option String
  organizationId : Nat

/-- Row of the `inventory` table. -/
structure Inventory where
  id : Nat
  itemId : Nat
  binId : Nat
  quantity : Int
  allocatedQuantity : Int
  deriving DecidableEq

/-- Row of the `inventory_transactions` table; per the schema comment the
`quantity` column is the signed delta (positive for additions, negative
for removals). -/
structure InventoryTransaction where
  id : Nat
  itemId : Nat
  binId : Nat
  quantity : Int
  type : String
  reference : Option String
  notes : Option String
  createdBy : Nat
  timestamp : Nat
  deriving DecidableEq

/-- Row of the `orders` table. -/
structure Order where
  id : Nat
  orderNumber : String
  customerName : String
  customerEmail : Option String
  shippingAddress : ShippingAddress
  status : String
  notes : Option String
  organizationId : Nat
  createdBy : Nat
  createdAt : Nat
  updatedAt : Nat
  deriving DecidableEq

/-- Row of the `order_items` table. -/
structure OrderItem where
  id : Nat
  orderId : Nat
  itemId : Nat
  quantity : Int
  allocatedQuantity : Int
  pickedQuantity : Int
  status : String
  deriving DecidableEq

/-- Row of the `shipments` table. -/
structure Shipment where
  id : Nat
  orderId : Nat
  carrier : String
  trackingNumber : Option String
  shippingCost : Option Float
  weight : Option Float
  dimensions : Option Dimensions
  labelUrl : Option String
  status : String
  createdBy : Nat
  createdAt : Nat

/-- Detail json payloads the embedded route handlers write to activity
logs, one constructor per call-site shape. -/
inductive LogDetails where
  | userDetail (username : String)
  | nameDetail (name : String)
  | inventoryCreateDetail (itemId binId : Nat) (quantity : Int)
      (itemSku : Option String) (binCode : Option String)
  | inventoryUpdateDetail (itemId binId : Nat) (quantityChange : Int)
      (itemSku : Option String)
  | orderCreateDetail (orderNumber customerName : String)
  | orderUpdateDetail (orderNumber : String)
  | statusChangeDetail (orderNumber previousStatus newStatus : String)
  deriving DecidableEq

/-- Row of the `activity_logs` table. -/
structure ActivityLog where
  id : Nat
  userId : Nat
  action : String
  entityType : String
  entityId : String
  details : Option LogDetails
  timestamp : Nat
  organizationId : Option Nat
  deriving DecidableEq

/-! ## Insert payloads

Each `insertXSchema` is the table shape with `id` (and the server-stamped
timestamp columns of orders, shipments and activity logs) omitted.  The
zod schemas mark columns carrying a database default as optional; the
in-memory store never applies those defaults, so the embedding takes the
well-typed inputs in which they are supplied. -/

/-- Parsed body of `insertOrganizationSchema`. -/
structure InsertOrganization where
  name : String
  description : Option String
  isActive : Bool
  parentId : Option Nat
  deriving DecidableEq

/-- Parsed body of `insertRoleSchema`. -/
structure InsertRole where
  name : String
  description : Option String
  permissions : List String
  scope : String
  deriving DecidableEq

/-- Parsed body of `insertUserSchema`. -/
structure InsertUser where
  username : String
  password : String
  email : String
  fullName : String
  isActive : Bool
  organizationId : Option Nat
  roleId : Option Nat
  deriving DecidableEq

/-- Parsed body of `insertWarehouseSchema`. -/
structure InsertWarehouse where
  name : String
  code : String
  address : Option String
  organizationId : Nat
  deriving DecidableEq

/-- Parsed body of `insertZoneSchema`. -/
structure InsertZone where
  name : String
  code : String
  warehouseId : Nat
  deriving DecidableEq

/-- Parsed body of `insertBinTypeSchema`. -/
structure InsertBinType where
  name : String
  maxWeight : Option Float
  maxVolume : Option Float
  dimensions : Option Dimensions
  organizationId : Nat

/-- Parsed body of `insertBinSchema`. -/
structure InsertBin where
  name : String
  code : String
  zoneId : Nat
  binTypeId : Option Nat
  isActive : Bool
  deriving DecidableEq

/-- Parsed body of `insertCategorySchema`. -/
structure InsertCategory where
  name : String
  description : Option String
  organizationId : Nat
  deriving DecidableEq

/-- Parsed body of `insertSupplierSchema`. -/
structure InsertSupplier where
  name : String
  code : String
  contactInfo : Option ContactInfo
  organizationId : Nat
  deriving DecidableEq

/-- Parsed body of `insertItemSchema`. -/
structure InsertItem where
  sku : String
  name : String
  description : Option String
  barcode : Option String
  categoryId : Option Nat
  supplierId : Option Nat
  dimensions : Option Dimensions
  weight : Option Float
  reorderPoint : Option Int
  reorderQuantity : Option Int
  notes : Option String
  organizationId : Nat

/-- Parsed body of `insertInventorySchema`; `quantity` and
`allocatedQuantity` default to 0 in the schema and are taken as supplied
(the handler's `|| 0` coalescing is the identity on supplied integers). -/
structure InsertInventory where
  itemId : Nat
  binId : Nat
  quantity : Int
  allocatedQuantity : Int
  deriving DecidableEq

/-- Parsed body of `insertInventoryTransactionSchema` (the caller passes
the timestamp explicitly for this entity). -/
structure InsertInventoryTransaction where
  itemId : Nat
  binId : Nat
  quantity : Int
  type : String
  reference : Option String
  notes : Option String
  createdBy : Nat
  timestamp : Nat
  deriving DecidableEq

/-- Parsed body of `insertOrderSchema` (createdAt/updatedAt omitted). -/
structure InsertOrder where
  orderNumber : String
  customerName : String
  customerEmail : Option String
  shippingAddress : ShippingAddress
  status : String
  notes : Option String
  organizationId : Nat
  createdBy : Nat
  deriving DecidableEq

/-- Parsed body of `insertOrderItemSchema`. -/
structure InsertOrderItem where
  orderId : Nat
  itemId : Nat
  quantity : Int
  allocatedQuantity : Int
  pickedQuantity : Int
  status : String
  deriving DecidableEq

/-- Parsed body of `insertShipmentSchema` (createdAt omitted). -/
structure InsertShipment where
  orderId : Nat
  carrier : String
  trackingNumber : Option String
  shippingCost : Option Float
  weight : Option Float
  dimensions : Option Dimensions
  labelUrl : Option String
  status : String
  createdBy : Nat

/-- Parsed body of `insertActivityLogSchema` (timestamp omitted, stamped
by the store). -/
structure InsertActivityLog where
  userId : Nat
  action : String
  entityType : String
  entityId : String
  details : Option LogDetails
  organizationId : Option Nat
  deriving DecidableEq

/-! ## Update payloads

The PATCH handlers forward the request body to the store as a
`Partial<InsertX>`: every field may be absent, and an absent field leaves
the stored value untouched under the `{ ...record, ...data }` spread.  A
field that is itself nullable distinguishes "absent" from "present and
null", hence the nested `Option`. -/

/-- Partial update of an organization. -/
structure OrganizationPatch where
  name : Option String := none
  description : Option (Option String) := none
  isActive : Option Bool := none
  parentId : Option (Option Nat) := none
  deriving DecidableEq

/-- Partial update of a role. -/
structure RolePatch where
  name : Option String := none
  description : Option (Option String) := none
  permissions : Option (List String) := none
  scope : Option String := none
  deriving DecidableEq

/-- Partial update of a user. -/
structure UserPatch where
  username : Option String := none
  password : Option String := none
  email : Option String := none
  fullName : Option String := none
  isActive : Option Bool := none
  organizationId : Option (Option Nat) := none
  roleId : Option (Option Nat) := none
  deriving DecidableEq

/-- Partial update of a warehouse. -/
structure WarehousePatch where
  name : Option String := none
  code : Option String := none
  address : Option (Option String) := none
  organizationId : Option Nat := none
  deriving DecidableEq

/-- Partial update of a zone. -/
structure ZonePatch where
  name : Option String := none
  code : Option String := none
  warehouseId : Option Nat := none
  deriving DecidableEq

/-- Partial update of a bin type. -/
structure BinTypePatch where
  name : Option String := none
  maxWeight : Option (Option Float) := none
  maxVolume : Option (Option Float) := none
  dimensions : Option (Option Dimensions) := none
  organizationId : Option Nat := none

/-- Partial update of a bin. -/
structure BinPatch where
  name : Option String := none
  code : Option String := none
  zoneId : Option Nat := none
  binTypeId : Option (Option Nat) := none
  isActive : Option Bool := none
  deriving DecidableEq

/-- Partial update of a category. -/
structure CategoryPatch where
  name : Option String := none
  description : Option (Option String) := none
  organizationId : Option Nat := none
  deriving DecidableEq

/-- Partial update of a supplier. -/
structure SupplierPatch where
  name : Option String := none
  code : Option String := none
  contactInfo : Option (Option ContactInfo) := none
  organizationId : Option Nat := none
  deriving DecidableEq

/-- Partial update of an item. -/
structure ItemPatch where
  sku : Option String := none
  name : Option String := none
  description : Option (Option String) := none
  barcode : Option (Option String) := none
  categoryId : Option (Option Nat) := none
  supplierId : Option (Option Nat) := none
  dimensions : Option (Option Dimensions) := none
  weight : Option (Option Float) := none
  reorderPoint : Option (Option Int) := none
  reorderQuantity : Option (Option Int) := none
  notes : Option (Option String) := none
  organizationId : Option Nat := none

/-- Partial update of an inventory record. -/
structure InventoryPatch where
  itemId : Option Nat := none
  binId : Option Nat := none
  quantity : Option Int := none
  allocatedQuantity : Option Int := none
  deriving DecidableEq

/-- Partial update of an order. -/
structure OrderPatch where
  orderNumber : Option String := none
  customerName : Option String := none
  customerEmail : Option (Option String) := none
  shippingAddress : Option ShippingAddress := none
  status : Option String := none
  notes : Option (Option String) := none
  organizationId : Option Nat := none
  createdBy : Option Nat := none
  deriving DecidableEq

/-- Partial update of an order item. -/
structure OrderItemPatch where
  orderId : Option Nat := none
  itemId : Option Nat := none
  quantity : Option Int := none
  allocatedQuantity : Option Int := none
  pickedQuantity : Option Int := none
  status : Option String := none
  deriving DecidableEq

/-- Partial update of a shipment. -/
structure ShipmentPatch where
  orderId : Option Nat := none
  carrier : Option String := none
  trackingNumber : Option (Option String) := none
  shippingCost : Option (Option Float) := none
  weight : Option (Option Float) := none
  dimensions : Option (Option Dimensions) := none
  labelUrl : Option (Option String) := none
  status : Option String := none
  createdBy : Option Nat := none

/-! ## The in-memory store (`MemStorage`) -/

/-- The monotonic id counters (`this.currentIds`). -/
structure CurrentIds where
  user : Nat
  organization : Nat
  role : Nat
  warehouse : Nat
  zone : Nat
  binType : Nat
  bin : Nat
  category : Nat
  supplier : Nat
  item : Nat
  inventory : Nat
  inventoryTransaction : Nat
  order : Nat
  orderItem : Nat
  shipment : Nat
  activityLog : Nat
  deriving DecidableEq

/-- The sixteen entity maps plus the counters. -/
structure Store where
  users : List (Nat × User)
  organizations : List (Nat × Organization)
  roles : List (Nat × Role)
  warehouses : List (Nat × Warehouse)
  zones : List (Nat × Zone)
  binTypes : List (Nat × BinType)
  bins : List (Nat × Bin)
  categories : List (Nat × Category)
  suppliers : List (Nat × Supplier)
  items : List (Nat × Item)
  inventory : List (Nat × Inventory)
  inventoryTransactions : List (Nat × InventoryTransaction)
  orders : List (Nat × Order)
  orderItems : List (Nat × OrderItem)
  shipments : List (Nat × Shipment)
  activityLogs : List (Nat × ActivityLog)
  currentIds : CurrentIds

/-- The store with every map empty and every counter at 1 (the state of
`MemStorage` before `initializeDefaults` runs). -/
def emptyStore : Store where
  users := []
  organizations := []
  roles := []
  warehouses := []
  zones := []
  binTypes := []
  bins := []
  categories := []
  suppliers := []
  items := []
  inventory := []
  inventoryTransactions := []
  orders := []
  orderItems := []
  shipments := []
  activityLogs := []
  currentIds := ⟨1, 1, 1, 1, 1, 1, 1, 1, 1, 1, 1, 1, 1, 1, 1, 1⟩

/-- JavaScript truthiness of an optional numeric argument (`undefined`
and `0` are falsy), as the storage list filters test it. -/
def truthyNat : Option Nat → Bool
  | some n => n != 0
  | none => false

/-- The `getUser` storage operation. -/
def getUser (s : Store) (id : Nat) : Option User :=
  mapGet s.users id

/-- The `getUserByUsername` storage operation: first user (in insertion
order) whose username matches. -/
def getUserByUsername (s : Store) (username : String) : Option User :=
  (mapValues s.users).find? (fun u => u.username == username)

/-- The `createUser` storage operation. -/
def createUser (s : Store) (u : InsertUser) : User × Store :=
  let id := s.currentIds.user
  let newUser : User :=
    { id := id, username := u.username, password := u.password, email := u.email,
      fullName := u.fullName, isActive := u.isActive,
      organizationId := u.organizationId, roleId := u.roleId }
  (newUser,
    { s with users := mapSet s.users id newUser,
             currentIds := { s.currentIds with user := id + 1 } })

/-- The `updateUser` storage operation: spread-merge of the patch into the
existing record, `undefined` when the id is absent. -/
def updateUser (s : Store) (id : Nat) (p : UserPatch) : Option User × Store :=
  match mapGet s.users id with
  | none => (none, s)
  | some user =>
    let updatedUser : User :=
      { id := user.id,
        username := p.username.getD user.username,
        password := p.password.getD user.password,
        email := p.email.getD user.email,
        fullName := p.fullName.getD user.fullName,
        isActive := p.isActive.getD user.isActive,
        organizationId := p.organizationId.getD user.organizationId,
        roleId := p.roleId.getD user.roleId }
    (some updatedUser, { s with users := mapSet s.users id updatedUser })

/-- The `listUsers` storage operation (the organization filter is applied
only when the argument is truthy). -/
def listUsers (s : Store) (organizationId : Option Nat) : List User :=
  let users := mapValues s.users
  if truthyNat organizationId then
    users.filter (fun u => u.organizationId == organizationId)
  else
    users

/-- The `getOrganization` storage operation. -/
def getOrganization (s : Store) (id : Nat) : Option Organization :=
  mapGet s.organizations id

/-- The `createOrganization` storage operation. -/
def createOrganization (s : Store) (o : InsertOrganization) : Organization × Store :=
  let id := s.currentIds.organization
  let newOrg : Organization :=
    { id := id, name := o.name, description := o.description,
      isActive := o.isActive, parentId := o.parentId }
  (newOrg,
    { s with organizations := mapSet s.organizations id newOrg,
             currentIds := { s.currentIds with organization := id + 1 } })

/-- The `updateOrganization` storage operation. -/
def updateOrganization (s : Store) (id : Nat) (p : OrganizationPatch) :
    Option Organization × Store :=
  match mapGet s.organizations id with
  | none => (none, s)
  | some org =>
    let updatedOrg : Organization :=
      { id := org.id,
        name := p.name.getD org.name,
        description := p.description.getD org.description,
        isActive := p.isActive.getD org.isActive,
        parentId := p.parentId.getD org.parentId }
    (some updatedOrg, { s with organizations := mapSet s.organizations id updatedOrg })

/-- The `getRole` storage operation. -/
def getRole (s : Store) (id : Nat) : Option Role :=
  mapGet s.roles id

/-- The `createRole` storage operation. -/
def createRole (s : Store) (r : InsertRole) : Role × Store :=
  let id := s.currentIds.role
  let newRole : Role :=
    { id := id, name := r.name, description := r.description,
      permissions := r.permissions, scope := r.scope }
  (newRole,
    { s with roles := mapSet s.roles id newRole,
             currentIds := { s.currentIds with role := id + 1 } })

/-- The `updateRole` storage operation. -/
def updateRole (s : Store) (id : Nat) (p : RolePatch) : Option Role × Store :=
  match mapGet s.roles id with
  | none => (none, s)
  | some role =>
    let updatedRole : Role :=
      { id := role.id,
        name := p.name.getD role.name,
        description := p.description.getD role.description,
        permissions := p.permissions.getD role.permissions,
        scope := p.scope.getD role.scope }
    (some updatedRole, { s with roles := mapSet s.roles id updatedRole })

/-- The `getWarehouse` storage operation. -/
def getWarehouse (s : Store) (id : Nat) : Option Warehouse :=
  mapGet s.warehouses id

/-- The `createWarehouse` storage operation. -/
def createWarehouse (s : Store) (w : InsertWarehouse) : Warehouse × Store :=
  let id := s.currentIds.warehouse
  let newWarehouse : Warehouse :=
    { id := id, name := w.name, code := w.code, address := w.address,
      organizationId := w.organizationId }
  (newWarehouse,
    { s with warehouses := mapSet s.warehouses id newWarehouse,
             currentIds := { s.currentIds with warehouse := id + 1 } })

/-- The `updateWarehouse` storage operation. -/
def updateWarehouse (s : Store) (id : Nat) (p : WarehousePatch) :
    Option Warehouse × Store :=
  match mapGet s.warehouses id with
  | none => (none, s)
  | some warehouse =>
    let updatedWarehouse : Warehouse :=
      { id := warehouse.id,
        name := p.name.getD warehouse.name,
        code := p.code.getD warehouse.code,
        address := p.address.getD warehouse.address,
        organizationId := p.organizationId.getD warehouse.organizationId }
    (some updatedWarehouse,
      { s with warehouses := mapSet s.warehouses id updatedWarehouse })

/-- The `getZone` storage operation. -/
def getZone (s : Store) (id : Nat) : Option Zone :=
  mapGet s.zones id

/-- The `createZone` storage operation. -/
def createZone (s : Store) (z : InsertZone) : Zone × Store :=
  let id := s.currentIds.zone
  let newZone : Zone :=
    { id := id, name := z.name, code := z.code, warehouseId := z.warehouseId }
  (newZone,
    { s with zones := mapSet s.zones id newZone,
             currentIds := { s.currentIds with zone := id + 1 } })

/-- The `updateZone` storage operation. -/
def updateZone (s : Store) (id : Nat) (p : ZonePatch) : Option Zone × Store :=
  match mapGet s.zones id with
  | none => (none, s)
  | some zone =>
    let updatedZone : Zone :=
      { id := zone.id,
        name := p.name.getD zone.name,
        code := p.code.getD zone.code,
        warehouseId := p.warehouseId.getD zone.warehouseId }
    (some updatedZone, { s with zones := mapSet s.zones id updatedZone })

/-- The `getBinType` storage operation. -/
def getBinType (s : Store) (id : Nat) : Option BinType :=
  mapGet s.binTypes id

/-- The `createBinType` storage operation. -/
def createBinType (s : Store) (b : InsertBinType) : BinType × Store :=
  let id := s.currentIds.binType
  let newBinType : BinType :=
    { id := id, name := b.name, maxWeight := b.maxWeight,
      maxVolume := b.maxVolume, dimensions := b.dimensions,
      organizationId := b.organizationId }
  (newBinType,
    { s with binTypes := mapSet s.binTypes id newBinType,
             currentIds := { s.currentIds with binType := id + 1 } })

/-- The `updateBinType` storage operation. -/
def updateBinType (s : Store) (id : Nat) (p : BinTypePatch) :
    Option BinType × Store :=
  match mapGet s.binTypes id with
  | none => (none, s)
  | some binType =>
    let updatedBinType : BinType :=
      { id := binType.id,
        name := p.name.getD binType.name,
        maxWeight := p.maxWeight.getD binType.maxWeight,
        maxVolume := p.maxVolume.getD binType.maxVolume,
        dimensions := p.dimensions.getD binType.dimensions,
        organizationId := p.organizationId.getD binType.organizationId }
    (some updatedBinType, { s with binTypes := mapSet s.binTypes id updatedBinType })

/-- The `getBin` storage operation. -/
def getBin (s : Store) (id : Nat) : Option Bin :=
  mapGet s.bins id

/-- The `createBin` storage operation. -/
def createBin (s : Store) (b : InsertBin) : Bin × Store :=
  let id := s.currentIds.bin
  let newBin : Bin :=
    { id := id, name := b.name, code := b.code, zoneId := b.zoneId,
      binTypeId := b.binTypeId, isActive := b.isActive }
  (newBin,
    { s with bins := mapSet s.bins id newBin,
             currentIds := { s.currentIds with bin := id + 1 } })

/-- The `updateBin` storage operation. -/
def updateBin (s : Store) (id : Nat) (p : BinPatch) : Option Bin × Store :=
  match mapGet s.bins id with
  | none => (none, s)
  | some bin =>
    let updatedBin : Bin :=
      { id := bin.id,
        name := p.name.getD bin.name,
        code := p.code.getD bin.code,
        zoneId := p.zoneId.getD bin.zoneId,
        binTypeId := p.binTypeId.getD bin.binTypeId,
        isActive := p.isActive.getD bin.isActive }
    (some updatedBin, { s with bins := mapSet s.bins id updatedBin })

/-- The `getCategory` storage operation. -/
def getCategory (s : Store) (id : Nat) : Option Category :=
  mapGet s.categories id

/-- The `createCategory` storage operation. -/
def createCategory (s : Store) (c : InsertCategory) : Category × Store :=
  let id := s.currentIds.category
  let newCategory : Category :=
    { id := id, name := c.name, description := c.description,
      organizationId := c.organizationId }
  (newCategory,
    { s with categories := mapSet s.categories id newCategory,
             currentIds := { s.currentIds with category := id + 1 } })

/-- The `updateCategory` storage operation. -/
def updateCategory (s : Store) (id : Nat) (p : CategoryPatch) :
    Option Category × Store :=
  match mapGet s.categories id with
  | none => (none, s)
  | some category =>
    let updatedCategory : Category :=
      { id := category.id,
        name := p.name.getD category.name,
        description := p.description.getD category.description,
        organizationId := p.organizationId.getD category.organizationId }
    (some updatedCategory,
      { s with categories := mapSet s.categories id updatedCategory })

/-- The `getSupplier` storage operation. -/
def getSupplier (s : Store) (id : Nat) : Option Supplier :=
  mapGet s.suppliers id

/-- The `createSupplier` storage operation. -/
def createSupplier (s : Store) (c : InsertSupplier) : Supplier × Store :=
  let id := s.currentIds.supplier
  let newSupplier : Supplier :=
    { id := id, name := c.name, code := c.code, contactInfo := c.contactInfo,
      organizationId := c.organizationId }
  (newSupplier,
    { s with suppliers := mapSet s.suppliers id newSupplier,
             currentIds := { s.currentIds with supplier := id + 1 } })

/-- The `updateSupplier` storage operation. -/
def updateSupplier (s : Store) (id : Nat) (p : SupplierPatch) :
    Option Supplier × Store :=
  match mapGet s.suppliers id with
  | none => (none, s)
  | some supplier =>
    let updatedSupplier : Supplier :=
      { id := supplier.id,
        name := p.name.getD supplier.name,
        code := p.code.getD supplier.code,
        contactInfo := p.contactInfo.getD supplier.contactInfo,
        organizationId := p.organizationId.getD supplier.organizationId }
    (some updatedSupplier,
      { s with suppliers := mapSet s.suppliers id updatedSupplier })

/-- The `getItem` storage operation. -/
def getItem (s : Store) (id : Nat) : Option Item :=
  mapGet s.items id

/-- The `getItemBySku` storage operation. -/
def getItemBySku (s : Store) (sku : String) (organizationId : Nat) : Option Item :=
  (mapValues s.items).find?
    (fun item => item.sku == sku && item.organizationId == organizationId)

/-- The `createItem` storage operation. -/
def createItem (s : Store) (i : InsertItem) : Item × Store :=
  let id := s.currentIds.item
  let newItem : Item :=
    { id := id, sku := i.sku, name := i.name, description := i.description,
      barcode := i.barcode, categoryId := i.categoryId, supplierId := i.supplierId,
      dimensions := i.dimensions, weight := i.weight,
      reorderPoint := i.reorderPoint, reorderQuantity := i.reorderQuantity,
      notes := i.notes, organizationId := i.organizationId }
  (newItem,
    { s with items := mapSet s.items id newItem,
             currentIds := { s.currentIds with item := id + 1 } })

/-- The `updateItem` storage operation. -/
def updateItem (s : Store) (id : Nat) (p : ItemPatch) : Option Item × Store :=
  match mapGet s.items id with
  | none => (none, s)
  | some item =>
    let updatedItem : Item :=
      { id := item.id,
        sku := p.sku.getD item.sku,
        name := p.name.getD item.name,
        description := p.description.getD item.description,
        barcode := p.barcode.getD item.barcode,
        categoryId := p.categoryId.getD item.categoryId,
        supplierId := p.supplierId.getD item.supplierId,
        dimensions := p.dimensions.getD item.dimensions,
        weight := p.weight.getD item.weight,
        reorderPoint := p.reorderPoint.getD item.reorderPoint,
        reorderQuantity := p.reorderQuantity.getD item.reorderQuantity,
        notes := p.notes.getD item.notes,
        organizationId := p.organizationId.getD item.organizationId }
    (some updatedItem, { s with items := mapSet s.items id updatedItem })

/-- The `getInventory(itemId, binId)` storage operation: first record (in
insertion order) carrying the pair. -/
def getInventory (s : Store) (itemId binId : Nat) : Option Inventory :=
  (mapValues s.inventory).find?
    (fun inv => inv.itemId == itemId && inv.binId == binId)

/-- The `listInventory` storage operation (each filter is applied only
when its argument is truthy). -/
def listInventory (s : Store) (itemId binId : Option Nat) : List Inventory :=
  let step1 := mapValues s.inventory
  let step2 :=
    if truthyNat itemId then step1.filter (fun inv => some inv.itemId == itemId)
    else step1
  if truthyNat binId then step2.filter (fun inv => some inv.binId == binId)
  else step2

/-- The `createInventory` storage operation. -/
def createInventory (s : Store) (i : InsertInventory) : Inventory × Store :=
  let id := s.currentIds.inventory
  let newInventory : Inventory :=
    { id := id, itemId := i.itemId, binId := i.binId,
      quantity := i.quantity, allocatedQuantity := i.allocatedQuantity }
  (newInventory,
    { s with inventory := mapSet s.inventory id newInventory,
             currentIds := { s.currentIds with inventory := id + 1 } })

/-- The `updateInventory` storage operation. -/
def updateInventory (s : Store) (id : Nat) (p : InventoryPatch) :
    Option Inventory × Store :=
  match mapGet s.inventory id with
  | none => (none, s)
  | some inventoryRecord =>
    let updatedInventory : Inventory :=
      { id := inventoryRecord.id,
        itemId := p.itemId.getD inventoryRecord.itemId,
        binId := p.binId.getD inventoryRecord.binId,
        quantity := p.quantity.getD inventoryRecord.quantity,
        allocatedQuantity := p.allocatedQuantity.getD inventoryRecord.allocatedQuantity }
    (some updatedInventory, { s with inventory := mapSet s.inventory id updatedInventory })

/-- The `createInventoryTransaction` storage operation (the timestamp
comes from the caller for this entity). -/
def createInventoryTransaction (s : Store) (t : InsertInventoryTransaction) :
    InventoryTransaction × Store :=
  let id := s.currentIds.inventoryTransaction
  let newTransaction : InventoryTransaction :=
    { id := id, itemId := t.itemId, binId := t.binId, quantity := t.quantity,
      type := t.type, reference := t.reference, notes := t.notes,
      createdBy := t.createdBy, timestamp := t.timestamp }
  (newTransaction,
    { s with inventoryTransactions := mapSet s.inventoryTransactions id newTransaction,
             currentIds := { s.currentIds with inventoryTransaction := id + 1 } })

/-- The `getOrder` storage operation. -/
def getOrder (s : Store) (id : Nat) : Option Order :=
  mapGet s.orders id

/-- The `getOrderByNumber` storage operation. -/
def getOrderByNumber (s : Store) (orderNumber : String) (organizationId : Nat) :
    Option Order :=
  (mapValues s.orders).find?
    (fun o => o.orderNumber == orderNumber && o.organizationId == organizationId)

/-- The `createOrder` storage operation: stamps `createdAt` and
`updatedAt` with the current time. -/
def createOrder (s : Store) (o : InsertOrder) (now : Nat) : Order × Store :=
  let id := s.currentIds.order
  let newOrder : Order :=
    { id := id, orderNumber := o.orderNumber, customerName := o.customerName,
      customerEmail := o.customerEmail, shippingAddress := o.shippingAddress,
      status := o.status, notes := o.notes, organizationId := o.organizationId,
      createdBy := o.createdBy, createdAt := now, updatedAt := now }
  (newOrder,
    { s with orders := mapSet s.orders id newOrder,
             currentIds := { s.currentIds with order := id + 1 } })

/-- The `updateOrder` storage operation: spread-merge of the patch, and
`updatedAt` is unconditionally set to the current time. -/
def updateOrder (s : Store) (id : Nat) (p : OrderPatch) (now : Nat) :
    Option Order × Store :=
  match mapGet s.orders id with
  | none => (none, s)
  | some order =>
    let updatedOrder : Order :=
      { id := order.id,
        orderNumber := p.orderNumber.getD order.orderNumber,
        customerName := p.customerName.getD order.customerName,
        customerEmail := p.customerEmail.getD order.customerEmail,
        shippingAddress := p.shippingAddress.getD order.shippingAddress,
        status := p.status.getD order.status,
        notes := p.notes.getD order.notes,
        organizationId := p.organizationId.getD order.organizationId,
        createdBy := p.createdBy.getD order.createdBy,
        createdAt := order.createdAt,
        updatedAt := now }
    (some updatedOrder, { s with orders := mapSet s.orders id updatedOrder })

/-- The `listOrderItems` storage operation. -/
def listOrderItems (s : Store) (orderId : Nat) : List OrderItem :=
  (mapValues s.orderItems).filter (fun item => item.orderId == orderId)

/-- The `createOrderItem` storage operation. -/
def createOrderItem (s : Store) (oi : InsertOrderItem) : OrderItem × Store :=
  let id := s.currentIds.orderItem
  let newOrderItem : OrderItem :=
    { id := id, orderId := oi.orderId, itemId := oi.itemId,
      quantity := oi.quantity, allocatedQuantity := oi.allocatedQuantity,
      pickedQuantity := oi.pickedQuantity, status := oi.status }
  (newOrderItem,
    { s with orderItems := mapSet s.orderItems id newOrderItem,
             currentIds := { s.currentIds with orderItem := id + 1 } })

/-- The `updateOrderItem` storage operation. -/
def updateOrderItem (s : Store) (id : Nat) (p : OrderItemPatch) :
    Option OrderItem × Store :=
  match mapGet s.orderItems id with
  | none => (none, s)
  | some orderItem =>
    let updatedOrderItem : OrderItem :=
      { id := orderItem.id,
        orderId := p.orderId.getD orderItem.orderId,
        itemId := p.itemId.getD orderItem.itemId,
        quantity := p.quantity.getD orderItem.quantity,
        allocatedQuantity := p.allocatedQuantity.getD orderItem.allocatedQuantity,
        pickedQuantity := p.pickedQuantity.getD orderItem.pickedQuantity,
        status := p.status.getD orderItem.status }
    (some updatedOrderItem, { s with orderItems := mapSet s.orderItems id updatedOrderItem })

/-- The `getShipment` storage operation. -/
def getShipment (s : Store) (id : Nat) : Option Shipment :=
  mapGet s.shipments id

/-- The `createShipment` storage operation: stamps `createdAt` with the
current time. -/
def createShipment (s : Store) (sh : InsertShipment) (now : Nat) : Shipment × Store :=
  let id := s.currentIds.shipment
  let newShipment : Shipment :=
    { id := id, orderId := sh.orderId, carrier := sh.carrier,
      trackingNumber := sh.trackingNumber, shippingCost := sh.shippingCost,
      weight := sh.weight, dimensions := sh.dimensions, labelUrl := sh.labelUrl,
      status := sh.status, createdBy := sh.createdBy, createdAt := now }
  (newShipment,
    { s with shipments := mapSet s.shipments id newShipment,
             currentIds := { s.currentIds with shipment := id + 1 } })

/-- The `updateShipment` storage operation. -/
def updateShipment (s : Store) (id : Nat) (p : ShipmentPatch) :
    Option Shipment × Store :=
  match mapGet s.shipments id with
  | none => (none, s)
  | some shipment =>
    let updatedShipment : Shipment :=
      { id := shipment.id,
        orderId := p.orderId.getD shipment.orderId,
        carrier := p.carrier.getD shipment.carrier,
        trackingNumber := p.trackingNumber.getD shipment.trackingNumber,
        shippingCost := p.shippingCost.getD shipment.shippingCost,
        weight := p.weight.getD shipment.weight,
        dimensions := p.dimensions.getD shipment.dimensions,
        labelUrl := p.labelUrl.getD shipment.labelUrl,
        status := p.status.getD shipment.status,
        createdBy := p.createdBy.getD shipment.createdBy,
        createdAt := shipment.createdAt }
    (some updatedShipment, { s with shipments := mapSet s.shipments id updatedShipment })

/-- The `createActivityLog` storage operation: stamps `timestamp` with
the current time. -/
def createActivityLog (s : Store) (log : InsertActivityLog) (now : Nat) :
    ActivityLog × Store :=
  let id := s.currentIds.activityLog
  let newLog : ActivityLog :=
    { id := id, userId := log.userId, action := log.action,
      entityType := log.entityType, entityId := log.entityId,
      details := log.details, timestamp := now,
      organizationId := log.organizationId }
  (newLog,
    { s with activityLogs := mapSet s.activityLogs id newLog,
             currentIds := { s.currentIds with activityLog := id + 1 } })

/-! ## Route handlers

Each handler is embedded from the registration in the routes file, after
the authentication and permission middleware have allowed the request and
the body has passed schema validation.  The current time and the bcrypt
hash function are explicit parameters. -/

/-- User payload as the user routes return it: every stored column except
the password, which the handlers strip before responding. -/
structure SanitizedUser where
  id : Nat
  username : String
  email : String
  fullName : String
  isActive : Bool
  organizationId : Option Nat
  roleId : Option Nat
  deriving DecidableEq

/-- The `{ password, ...sanitizedUser } = user` destructuring. -/
def sanitizeUser (u : User) : SanitizedUser :=
  { id := u.id, username := u.username, email := u.email, fullName := u.fullName,
    isActive := u.isActive, organizationId := u.organizationId, roleId := u.roleId }

/-- The `GET /api/users` handler body (status 200). -/
def listUsersRoute (s : Store) (organizationId : Option Nat) : List SanitizedUser :=
  (listUsers s organizationId).map sanitizeUser

/-- Response of `GET /api/users/:id`. -/
inductive UserGetResponse where
  | ok (user : SanitizedUser)
  | notFound
  deriving DecidableEq

/-- HTTP status of a `UserGetResponse`. -/
def UserGetResponse.status : UserGetResponse → Nat
  | .ok _ => 200
  | .notFound => 404

/-- The `GET /api/users/:id` handler. -/
def getUserRoute (s : Store) (id : Nat) : UserGetResponse :=
  match getUser s id with
  | none => .notFound
  | some user => .ok (sanitizeUser user)

/-- Response of `POST /api/users`. -/
inductive UserCreateResponse where
  | created (user : SanitizedUser)
  | usernameExists
  deriving DecidableEq

/-- HTTP status of a `UserCreateResponse`. -/
def UserCreateResponse.status : UserCreateResponse → Nat
  | .created _ => 201
  | .usernameExists => 400

/-- The `POST /api/users` handler: duplicate-username precheck, bcrypt
hash of the password, store insert, activity log, sanitized response. -/
def createUserRoute (s : Store) (actorId : Nat) (userData : InsertUser)
    (hash : String → String) (now : Nat) : UserCreateResponse × Store :=
  match getUserByUsername s userData.username with
  | some _ => (.usernameExists, s)
  | none =>
    let hashedPassword := hash userData.password
    let (user, s1) := createUser s { userData with password := hashedPassword }
    let (_, s2) := createActivityLog s1
      { userId := actorId, action := "create", entityType := "user",
        entityId := toString user.id,
        details := some (.userDetail user.username),
        organizationId := userData.organizationId } now
    (.created (sanitizeUser user), s2)

/-- Response of `PATCH /api/users/:id`. -/
inductive UserPatchResponse where
  | ok (user : SanitizedUser)
  | notFound
  deriving DecidableEq

/-- HTTP status of a `UserPatchResponse`. -/
def UserPatchResponse.status : UserPatchResponse → Nat
  | .ok _ => 200
  | .notFound => 404

/-- The `let updatedData = { ...req.body }` step of the user PATCH
handler: a truthy incoming password — a nonempty string — is replaced by
its bcrypt hash before the merge. -/
def hashedUserPatch (body : UserPatch) (hash : String → String) : UserPatch :=
  match body.password with
  | some pw => if pw != "" then { body with password := some (hash pw) } else body
  | none => body

/-- The `PATCH /api/users/:id` handler. -/
def patchUserRoute (s : Store) (actorId : Nat) (id : Nat) (body : UserPatch)
    (hash : String → String) (now : Nat) : UserPatchResponse × Store :=
  match getUser s id with
  | none => (.notFound, s)
  | some user =>
    let updatedData : UserPatch := hashedUserPatch body hash
    match updateUser s id updatedData with
    | (none, s1) => (.notFound, s1)
    | (some updatedUser, s1) =>
      let (_, s2) := createActivityLog s1
        { userId := actorId, action := "update", entityType := "user",
          entityId := toString id,
          details := some (.userDetail user.username),
          organizationId := user.organizationId } now
      (.ok (sanitizeUser updatedUser), s2)

/-- Response of `POST /api/inventory`.  The merged-or-created record is
echoed back; when the looked-up record is unexpectedly absent the handler
throws while building the activity log and the catch block answers 500
(after the transaction row was already written). -/
inductive InventoryCreateResponse where
  | created (inventoryRecord : Inventory)
  | error500
  deriving DecidableEq

/-- HTTP status of an `InventoryCreateResponse`. -/
def InventoryCreateResponse.status : InventoryCreateResponse → Nat
  | .created _ => 201
  | .error500 => 500

/-- The `POST /api/inventory` handler: merge into an existing (item, bin)
row when one exists, create a fresh row otherwise, then write a
`receiving` transaction for the incoming quantity and an activity log. -/
def postInventoryRoute (s : Store) (actorId : Nat) (inventoryData : InsertInventory)
    (reference notes : Option String) (now : Nat) : InventoryCreateResponse × Store :=
  let existingInventory := getInventory s inventoryData.itemId inventoryData.binId
  let (inventoryResult, s1) :=
    match existingInventory with
    | some ex =>
      updateInventory s ex.id
        { quantity := some (ex.quantity + inventoryData.quantity),
          allocatedQuantity := some (ex.allocatedQuantity + inventoryData.allocatedQuantity) }
    | none =>
      let (newInv, s') := createInventory s inventoryData
      (some newInv, s')
  let item := getItem s1 inventoryData.itemId
  let bin := getBin s1 inventoryData.binId
  let (_, s2) := createInventoryTransaction s1
    { itemId := inventoryData.itemId, binId := inventoryData.binId,
      quantity := inventoryData.quantity, type := "receiving",
      reference := reference, notes := notes,
      createdBy := actorId, timestamp := now }
  match inventoryResult with
  | none => (.error500, s2)
  | some inventoryRecord =>
    let (_, s3) := createActivityLog s2
      { userId := actorId, action := "create", entityType := "inventory",
        entityId := toString inventoryRecord.id,
        details := some (.inventoryCreateDetail inventoryData.itemId inventoryData.binId
          inventoryData.quantity (item.map Item.sku) (bin.map Bin.code)),
        organizationId := item.map Item.organizationId } now
    (.created inventoryRecord, s3)

/-- Response of `PATCH /api/inventory/:id`. -/
inductive InventoryPatchResponse where
  | ok (inventoryRecord : Inventory)
  | notFound
  deriving DecidableEq

/-- HTTP status of an `InventoryPatchResponse`. -/
def InventoryPatchResponse.status : InventoryPatchResponse → Nat
  | .ok _ => 200
  | .notFound => 404

/-- The `PATCH /api/inventory/:id` handler.  Note the order of
operations in the source: `currentInventory` is the value returned by
`storage.updateInventory`, i.e. the record after the merge, and the
adjustment transaction's quantity is computed from it. -/
def patchInventoryRoute (s : Store) (actorId : Nat) (id : Nat) (body : InventoryPatch)
    (reference notes : Option String) (now : Nat) : InventoryPatchResponse × Store :=
  let (currentInventoryResult, s1) := updateInventory s id body
  match currentInventoryResult with
  | none => (.notFound, s1)
  | some currentInventory =>
    let item := getItem s1 currentInventory.itemId
    let s2 :=
      match body.quantity with
      | some q =>
        (createInventoryTransaction s1
          { itemId := currentInventory.itemId, binId := currentInventory.binId,
            quantity := q - (currentInventory.quantity - q),
            type := "adjustment", reference := reference, notes := notes,
            createdBy := actorId, timestamp := now }).2
      | none => s1
    let quantityChange : Int :=
      match body.quantity with
      | some q => q - currentInventory.quantity
      | none => 0
    let (_, s3) := createActivityLog s2
      { userId := actorId, action := "update", entityType := "inventory",
        entityId := toString id,
        details := some (.inventoryUpdateDetail currentInventory.itemId
          currentInventory.binId quantityChange (item.map Item.sku)),
        organizationId := item.map Item.organizationId } now
    (.ok currentInventory, s3)

/-- Submitted line item of a `POST /api/orders` body. -/
structure OrderItemInput where
  itemId : Nat
  quantity : Int
  deriving DecidableEq

/-- The `for (const item of items)` loop of the order-creation handler:
creates one order item per submitted line, threading the store. -/
def createOrderItemsLoop (orderId : Nat) : Store → List OrderItemInput →
    List OrderItem × Store
  | s, [] => ([], s)
  | s, item :: rest =>
    let (orderItem, s1) := createOrderItem s
      { orderId := orderId, itemId := item.itemId, quantity := item.quantity,
        allocatedQuantity := 0, pickedQuantity := 0, status := "pending" }
    let (restItems, s2) := createOrderItemsLoop orderId s1 rest
    (orderItem :: restItems, s2)

/-- Response of `POST /api/orders`. -/
inductive OrderCreateResponse where
  | created (order : Order) (items : List OrderItem)
  | orderNumberExists
  deriving DecidableEq

/-- HTTP status of an `OrderCreateResponse`. -/
def OrderCreateResponse.status : OrderCreateResponse → Nat
  | .created _ _ => 201
  | .orderNumberExists => 400

/-- The `POST /api/orders` handler: duplicate-order-number precheck,
order insert attributed to the caller, nested order-item creation,
activity log, and a response carrying the order plus its items. -/
def postOrdersRoute (s : Store) (actorId : Nat) (orderData : InsertOrder)
    (items : List OrderItemInput) (now : Nat) : OrderCreateResponse × Store :=
  match getOrderByNumber s orderData.orderNumber orderData.organizationId with
  | some _ => (.orderNumberExists, s)
  | none =>
    let (order, s1) := createOrder s { orderData with createdBy := actorId } now
    let (orderItemList, s2) := createOrderItemsLoop order.id s1 items
    let (_, s3) := createActivityLog s2
      { userId := actorId, action := "create", entityType := "order",
        entityId := toString order.id,
        details := some (.orderCreateDetail order.orderNumber order.customerName),
        organizationId := order.organizationId } now
    (.created order orderItemList, s3)

/-- Response of `PATCH /api/orders/:id`. -/
inductive OrderPatchResponse where
  | ok (order : Order)
  | notFound
  deriving DecidableEq

/-- HTTP status of an `OrderPatchResponse`. -/
def OrderPatchResponse.status : OrderPatchResponse → Nat
  | .ok _ => 200
  | .notFound => 404

/-- The `PATCH /api/orders/:id` handler: merge update, an extra
`status_change` audit entry when a truthy incoming status differs from
the stored one, then the generic `update` audit entry. -/
def patchOrderRoute (s : Store) (actorId : Nat) (id : Nat) (body : OrderPatch)
    (now : Nat) : OrderPatchResponse × Store :=
  match getOrder s id with
  | none => (.notFound, s)
  | some currentOrder =>
    match updateOrder s id body now with
    | (none, s1) => (.notFound, s1)
    | (some updatedOrder, s1) =>
      let s2 :=
        match body.status with
        | some st =>
          if st != "" && st != currentOrder.status then
            (createActivityLog s1
              { userId := actorId, action := "status_change", entityType := "order",
                entityId := toString id,
                details := some (.statusChangeDetail updatedOrder.orderNumber
                  currentOrder.status st),
                organizationId := updatedOrder.organizationId } now).2
          else s1
        | none => s1
      let (_, s3) := createActivityLog s2
        { userId := actorId, action := "update", entityType := "order",
          entityId := toString id,
          details := some (.orderUpdateDetail updatedOrder.orderNumber),
          organizationId := updatedOrder.organizationId } now
      (.ok updatedOrder, s3)

/-- Fixed header line of the inventory CSV report. -/
def csvHeader : String :=
  "SKU,Name,Category,Warehouse,Zone,Bin,Quantity,Allocated,Available\n"

/-- One data row of the inventory CSV report, with the first six columns
quoted and the available quantity computed as quantity minus allocated. -/
def csvLine (item : Item) (bin : Bin) (zone : Option Zone)
    (warehouse : Option Warehouse) (category : Option Category)
    (inv : Inventory) : String :=
  "\"" ++ item.sku ++ "\",\"" ++ item.name ++ "\",\"" ++
    (match category with | some c => c.name | none => "") ++ "\",\"" ++
    (match warehouse with | some w => w.name | none => "") ++ "\",\"" ++
    (match zone with | some z => z.name | none => "") ++ "\",\"" ++
    bin.code ++ "\"," ++ toString inv.quantity ++ "," ++
    toString inv.allocatedQuantity ++ "," ++
    toString (inv.quantity - inv.allocatedQuantity) ++ "\n"

/-- The report loop over all inventory rows: skip a row whose item or bin
is missing, resolve zone, warehouse and category, skip a row whose item
belongs to another organization, and emit the CSV line otherwise. -/
def csvRows (s : Store) (organizationId : Nat) : List Inventory → String
  | [] => ""
  | inv :: rest =>
    let line :=
      match getItem s inv.itemId, getBin s inv.binId with
      | some item, some bin =>
        let zone := getZone s bin.zoneId
        let warehouse :=
          match zone with
          | some z => getWarehouse s z.warehouseId
          | none => none
        let category :=
          match item.categoryId with
          | some cid => if cid != 0 then getCategory s cid else none
          | none => none
        if item.organizationId != organizationId then ""
        else csvLine item bin zone warehouse category inv
      | _, _ => ""
    line ++ csvRows s organizationId rest

/-- The `GET /api/reports/inventory-csv` handler body: the fixed header
followed by one line per inventory row that survives the filters. -/
def inventoryCsvRoute (s : Store) (organizationId : Nat) : String :=
  csvHeader ++ csvRows s organizationId (listInventory s none none)

/-! ## Claim theorems -/

/-- C1: for every role R and permission string P, the permission gate
allows the request if and only if R's permission list contains `"all"`
or contains P exactly; otherwise it responds with a forbidden error, and
a role with no permission list (or a principal with no resolved role) is
also refused with a forbidden error. -/
theorem c1_permission_gate_exact_match (perms : List String) (p : String) :
    (hasPermission p true (some ⟨some ⟨some perms⟩⟩) = .allowed ↔
      "all" ∈ perms ∨ p ∈ perms) ∧
    (hasPermission p true (some ⟨some ⟨some perms⟩⟩) = .forbidden ↔
      ¬("all" ∈ perms ∨ p ∈ perms)) ∧
    (hasPermission p true (some ⟨some ⟨some perms⟩⟩)).status ≠ some 200 ∧
    hasPermission p true (some ⟨some ⟨none⟩⟩) = .forbidden ∧
    hasPermission p true (some ⟨none⟩) = .forbidden := by
  refine ⟨?_, ?_, ?_, rfl, rfl⟩
  · by_cases hAll : "all" ∈ perms <;> by_cases hp : p ∈ perms <;>
      simp [hasPermission, hAll, hp]
  · by_cases hAll : "all" ∈ perms <;> by_cases hp : p ∈ perms <;>
      simp [hasPermission, hAll, hp]
  · by_cases hAll : "all" ∈ perms <;> by_cases hp : p ∈ perms <;>
      simp [hasPermission, hAll, hp, GateResult.status]

/-! ### Concrete fixtures for instantiating the theorems -/

/-- Stand-in for the bcrypt hash in concrete instantiations. -/
def sampleHash (pw : String) : String :=
  "hashed:" ++ pw

/-- A stored user record. -/
def sampleAdmin : User :=
  { id := 1, username := "admin", password := "hp", email := "admin@example.com",
    fullName := "Admin User", isActive := true, organizationId := some 1,
    roleId := some 1 }

/-- A shipping address payload. -/
def sampleAddress : ShippingAddress :=
  { address1 := "1 Main St", address2 := none, city := "Springfield",
    state := "IL", zipCode := "62701", country := "US" }

/-- A stored order record. -/
def sampleOrder : Order :=
  { id := 1, orderNumber := "SO-1", customerName := "Acme",
    customerEmail := none, shippingAddress := sampleAddress,
    status := "pending", notes := none, organizationId := 1, createdBy := 1,
    createdAt := 0, updatedAt := 0 }

/-- A stored organization record. -/
def sampleOrganization : Organization :=
  { id := 1, name := "Borderworx", description := none, isActive := true,
    parentId := none }

/-- A stored role record. -/
def sampleRole : Role :=
  { id := 1, name := "Global Admin", description := none,
    permissions := ["all"], scope := "global" }

/-- A stored warehouse record. -/
def sampleWarehouse : Warehouse :=
  { id := 1, name := "Main WH", code := "WH1", address := none,
    organizationId := 1 }

/-- A stored zone record. -/
def sampleZone : Zone :=
  { id := 1, name := "Zone A", code := "ZA", warehouseId := 1 }

/-- A stored bin-type record. -/
def sampleBinType : BinType :=
  { id := 1, name := "Pallet", maxWeight := none, maxVolume := none,
    dimensions := none, organizationId := 1 }

/-- A stored bin record. -/
def sampleBin : Bin :=
  { id := 1, name := "Bin 1", code := "B1", zoneId := 1, binTypeId := none,
    isActive := true }

/-- A stored category record. -/
def sampleCategory : Category :=
  { id := 1, name := "Widgets", description := none, organizationId := 1 }

/-- A stored supplier record. -/
def sampleSupplier : Supplier :=
  { id := 1, name := "Supplies Inc", code := "SUP1", contactInfo := none,
    organizationId := 1 }

/-- A stored item record. -/
def sampleItem : Item :=
  { id := 1, sku := "SKU-1", name := "Widget", description := none,
    barcode := none, categoryId := none, supplierId := none,
    dimensions := none, weight := none, reorderPoint := none,
    reorderQuantity := none, notes := none, organizationId := 1 }

/-- A stored inventory record. -/
def sampleInventory : Inventory :=
  { id := 1, itemId := 1, binId := 1, quantity := 5, allocatedQuantity := 1 }

/-- A stored order-item record. -/
def sampleOrderItem : OrderItem :=
  { id := 1, orderId := 1, itemId := 1, quantity := 2, allocatedQuantity := 0,
    pickedQuantity := 0, status := "pending" }

/-- A stored shipment record. -/
def sampleShipment : Shipment :=
  { id := 1, orderId := 1, carrier := "UPS", trackingNumber := none,
    shippingCost := none, weight := none, dimensions := none, labelUrl := none,
    status := "pending", createdBy := 1, createdAt := 0 }

/-- A store holding one record of each entity, all under id 1. -/
def sampleStore : Store where
  users := [(1, sampleAdmin)]
  organizations := [(1, sampleOrganization)]
  roles := [(1, sampleRole)]
  warehouses := [(1, sampleWarehouse)]
  zones := [(1, sampleZone)]
  binTypes := [(1, sampleBinType)]
  bins := [(1, sampleBin)]
  categories := [(1, sampleCategory)]
  suppliers := [(1, sampleSupplier)]
  items := [(1, sampleItem)]
  inventory := [(1, sampleInventory)]
  inventoryTransactions := []
  orders := [(1, sampleOrder)]
  orderItems := [(1, sampleOrderItem)]
  shipments := [(1, sampleShipment)]
  activityLogs := []
  currentIds := ⟨2, 2, 2, 2, 2, 2, 2, 2, 2, 2, 2, 1, 2, 2, 2, 1⟩

/-- An insert payload colliding with `sampleAdmin`'s username. -/
def sampleInsertUser : InsertUser :=
  { username := "admin", password := "pw", email := "second@example.com",
    fullName := "Second Admin", isActive := true, organizationId := some 1,
    roleId := some 1 }

/-- C3: a user-creation request whose username equals an existing user's
username fails with a 400 response and leaves the store — in particular
the set of stored user records — unchanged. -/
theorem c3_duplicate_username_rejected (s : Store) (actorId : Nat)
    (userData : InsertUser) (hash : String → String) (now : Nat) (u : User)
    (hdup : getUserByUsername s userData.username = some u) :
    (createUserRoute s actorId userData hash now).1.status = 400 ∧
    (createUserRoute s actorId userData hash now).2 = s := by
  simp [createUserRoute, hdup, UserCreateResponse.status]

/-- Witness for C3 at a concrete store and payload. -/
theorem c3_witness :
    getUserByUsername sampleStore sampleInsertUser.username = some sampleAdmin ∧
    (createUserRoute sampleStore 1 sampleInsertUser sampleHash 5).1.status = 400 ∧
    (createUserRoute sampleStore 1 sampleInsertUser sampleHash 5).2 = sampleStore := by
  have hdup : getUserByUsername sampleStore sampleInsertUser.username = some sampleAdmin := by
    decide
  have h := c3_duplicate_username_rejected sampleStore 1 sampleInsertUser sampleHash 5
    sampleAdmin hdup
  exact ⟨hdup, h.1, h.2⟩

/-- C10: for every entity type, updating an id absent from that entity's
map returns `undefined` (embedded as `none`, which the route answers
with 404) and leaves the whole store — every map — unchanged; the
`PATCH /api/orders/:id` route likewise answers 404 without any change. -/
theorem c10_update_missing_id_not_found :
    (∀ s id p, mapGet s.users id = none → updateUser s id p = (none, s)) ∧
    (∀ s id p, mapGet s.organizations id = none → updateOrganization s id p = (none, s)) ∧
    (∀ s id p, mapGet s.roles id = none → updateRole s id p = (none, s)) ∧
    (∀ s id p, mapGet s.warehouses id = none → updateWarehouse s id p = (none, s)) ∧
    (∀ s id p, mapGet s.zones id = none → updateZone s id p = (none, s)) ∧
    (∀ s id p, mapGet s.binTypes id = none → updateBinType s id p = (none, s)) ∧
    (∀ s id p, mapGet s.bins id = none → updateBin s id p = (none, s)) ∧
    (∀ s id p, mapGet s.categories id = none → updateCategory s id p = (none, s)) ∧
    (∀ s id p, mapGet s.suppliers id = none → updateSupplier s id p = (none, s)) ∧
    (∀ s id p, mapGet s.items id = none → updateItem s id p = (none, s)) ∧
    (∀ s id p, mapGet s.inventory id = none → updateInventory s id p = (none, s)) ∧
    (∀ s id p now, mapGet s.orders id = none → updateOrder s id p now = (none, s)) ∧
    (∀ s id p, mapGet s.orderItems id = none → updateOrderItem s id p = (none, s)) ∧
    (∀ s id p, mapGet s.shipments id = none → updateShipment s id p = (none, s)) ∧
    (∀ s actorId id body now, getOrder s id = none →
      patchOrderRoute s actorId id body now = (.notFound, s) ∧
      (patchOrderRoute s actorId id body now).1.status = 404) := by
  refine ⟨fun s id p h => by simp [updateUser, h],
    fun s id p h => by simp [updateOrganization, h],
    fun s id p h => by simp [updateRole, h],
    fun s id p h => by simp [updateWarehouse, h],
    fun s id p h => by simp [updateZone, h],
    fun s id p h => by simp [updateBinType, h],
    fun s id p h => by simp [updateBin, h],
    fun s id p h => by simp [updateCategory, h],
    fun s id p h => by simp [updateSupplier, h],
    fun s id p h => by simp [updateItem, h],
    fun s id p h => by simp [updateInventory, h],
    fun s id p now h => by simp [updateOrder, h],
    fun s id p h => by simp [updateOrderItem, h],
    fun s id p h => by simp [updateShipment, h],
    fun s actorId id body now h => by
      simp [patchOrderRoute, h, OrderPatchResponse.status]⟩

/-- Witness for C10 on the empty store at id 7. -/
theorem c10_witness :
    updateUser emptyStore 7 {} = (none, emptyStore) ∧
    updateOrganization emptyStore 7 {} = (none, emptyStore) ∧
    updateRole emptyStore 7 {} = (none, emptyStore) ∧
    updateWarehouse emptyStore 7 {} = (none, emptyStore) ∧
    updateZone emptyStore 7 {} = (none, emptyStore) ∧
    updateBinType emptyStore 7 {} = (none, emptyStore) ∧
    updateBin emptyStore 7 {} = (none, emptyStore) ∧
    updateCategory emptyStore 7 {} = (none, emptyStore) ∧
    updateSupplier emptyStore 7 {} = (none, emptyStore) ∧
    updateItem emptyStore 7 {} = (none, emptyStore) ∧
    updateInventory emptyStore 7 {} = (none, emptyStore) ∧
    updateOrder emptyStore 7 {} 3 = (none, emptyStore) ∧
    updateOrderItem emptyStore 7 {} = (none, emptyStore) ∧
    updateShipment emptyStore 7 {} = (none, emptyStore) ∧
    patchOrderRoute emptyStore 1 7 {} 3 = (.notFound, emptyStore) := by
  have h := c10_update_missing_id_not_found
  exact ⟨h.1 _ _ _ rfl, h.2.1 _ _ _ rfl, h.2.2.1 _ _ _ rfl, h.2.2.2.1 _ _ _ rfl,
    h.2.2.2.2.1 _ _ _ rfl, h.2.2.2.2.2.1 _ _ _ rfl, h.2.2.2.2.2.2.1 _ _ _ rfl,
    h.2.2.2.2.2.2.2.1 _ _ _ rfl, h.2.2.2.2.2.2.2.2.1 _ _ _ rfl,
    h.2.2.2.2.2.2.2.2.2.1 _ _ _ rfl, h.2.2.2.2.2.2.2.2.2.2.1 _ _ _ rfl,
    h.2.2.2.2.2.2.2.2.2.2.2.1 _ _ _ 3 rfl, h.2.2.2.2.2.2.2.2.2.2.2.2.1 _ _ _ rfl,
    h.2.2.2.2.2.2.2.2.2.2.2.2.2.1 _ _ _ rfl,
    (h.2.2.2.2.2.2.2.2.2.2.2.2.2.2 emptyStore 1 7 {} 3 rfl).1⟩

/-- C6 counterexample: updating order 1 with a payload supplying no
fields at clock value 1 returns a record whose `updatedAt` — a field the
payload cannot supply, stored as 0 — has changed to 1, so the update did
not preserve every field absent from the payload. -/
theorem c6_counterexample_order_updatedAt :
    (updateOrder sampleStore 1 {} 1).1 = some { sampleOrder with updatedAt := 1 } ∧
    (updateOrder sampleStore 1 {} 1).1 ≠ some sampleOrder ∧
    sampleOrder.updatedAt = 0 := by
  refine ⟨rfl, ?_, rfl⟩
  decide

/-- C6 amended: for every entity type, updating an existing record
changes only the fields the payload supplies and preserves every other
field — with the single exception that an order's `updatedAt` timestamp
is always overwritten with the current time (its `createdAt` and id are
preserved, as is the id of every other entity). -/
theorem c6_partial_update_preserves_fields :
    (∀ s id p u u', mapGet s.users id = some u → (updateUser s id p).1 = some u' →
      u'.id = u.id ∧
      (p.username = none → u'.username = u.username) ∧
      (p.password = none → u'.password = u.password) ∧
      (p.email = none → u'.email = u.email) ∧
      (p.fullName = none → u'.fullName = u.fullName) ∧
      (p.isActive = none → u'.isActive = u.isActive) ∧
      (p.organizationId = none → u'.organizationId = u.organizationId) ∧
      (p.roleId = none → u'.roleId = u.roleId)) ∧
    (∀ s id p u u', mapGet s.organizations id = some u →
        (updateOrganization s id p).1 = some u' →
      u'.id = u.id ∧
      (p.name = none → u'.name = u.name) ∧
      (p.description = none → u'.description = u.description) ∧
      (p.isActive = none → u'.isActive = u.isActive) ∧
      (p.parentId = none → u'.parentId = u.parentId)) ∧
    (∀ s id p u u', mapGet s.roles id = some u → (updateRole s id p).1 = some u' →
      u'.id = u.id ∧
      (p.name = none → u'.name = u.name) ∧
      (p.description = none → u'.description = u.description) ∧
      (p.permissions = none → u'.permissions = u.permissions) ∧
      (p.scope = none → u'.scope = u.scope)) ∧
    (∀ s id p u u', mapGet s.warehouses id = some u →
        (updateWarehouse s id p).1 = some u' →
      u'.id = u.id ∧
      (p.name = none → u'.name = u.name) ∧
      (p.code = none → u'.code = u.code) ∧
      (p.address = none → u'.address = u.address) ∧
      (p.organizationId = none → u'.organizationId = u.organizationId)) ∧
    (∀ s id p u u', mapGet s.zones id = some u → (updateZone s id p).1 = some u' →
      u'.id = u.id ∧
      (p.name = none → u'.name = u.name) ∧
      (p.code = none → u'.code = u.code) ∧
      (p.warehouseId = none → u'.warehouseId = u.warehouseId)) ∧
    (∀ s id p u u', mapGet s.binTypes id = some u → (updateBinType s id p).1 = some u' →
      u'.id = u.id ∧
      (p.name = none → u'.name = u.name) ∧
      (p.maxWeight = none → u'.maxWeight = u.maxWeight) ∧
      (p.maxVolume = none → u'.maxVolume = u.maxVolume) ∧
      (p.dimensions = none → u'.dimensions = u.dimensions) ∧
      (p.organizationId = none → u'.organizationId = u.organizationId)) ∧
    (∀ s id p u u', mapGet s.bins id = some u → (updateBin s id p).1 = some u' →
      u'.id = u.id ∧
      (p.name = none → u'.name = u.name) ∧
      (p.code = none → u'.code = u.code) ∧
      (p.zoneId = none → u'.zoneId = u.zoneId) ∧
      (p.binTypeId = none → u'.binTypeId = u.binTypeId) ∧
      (p.isActive = none → u'.isActive = u.isActive)) ∧
    (∀ s id p u u', mapGet s.categories id = some u →
        (updateCategory s id p).1 = some u' →
      u'.id = u.id ∧
      (p.name = none → u'.name = u.name) ∧
      (p.description = none → u'.description = u.description) ∧
      (p.organizationId = none → u'.organizationId = u.organizationId)) ∧
    (∀ s id p u u', mapGet s.suppliers id = some u →
        (updateSupplier s id p).1 = some u' →
      u'.id = u.id ∧
      (p.name = none → u'.name = u.name) ∧
      (p.code = none → u'.code = u.code) ∧
      (p.contactInfo = none → u'.contactInfo = u.contactInfo) ∧
      (p.organizationId = none → u'.organizationId = u.organizationId)) ∧
    (∀ s id p u u', mapGet s.items id = some u → (updateItem s id p).1 = some u' →
      u'.id = u.id ∧
      (p.sku = none → u'.sku = u.sku) ∧
      (p.name = none → u'.name = u.name) ∧
      (p.description = none → u'.description = u.description) ∧
      (p.barcode = none → u'.barcode = u.barcode) ∧
      (p.categoryId = none → u'.categoryId = u.categoryId) ∧
      (p.supplierId = none → u'.supplierId = u.supplierId) ∧
      (p.dimensions = none → u'.dimensions = u.dimensions) ∧
      (p.weight = none → u'.weight = u.weight) ∧
      (p.reorderPoint = none → u'.reorderPoint = u.reorderPoint) ∧
      (p.reorderQuantity = none → u'.reorderQuantity = u.reorderQuantity) ∧
      (p.notes = none → u'.notes = u.notes) ∧
      (p.organizationId = none → u'.organizationId = u.organizationId)) ∧
    (∀ s id p u u', mapGet s.inventory id = some u →
        (updateInventory s id p).1 = some u' →
      u'.id = u.id ∧
      (p.itemId = none → u'.itemId = u.itemId) ∧
      (p.binId = none → u'.binId = u.binId) ∧
      (p.quantity = none → u'.quantity = u.quantity) ∧
      (p.allocatedQuantity = none → u'.allocatedQuantity = u.allocatedQuantity)) ∧
    (∀ s id p now u u', mapGet s.orders id = some u →
        (updateOrder s id p now).1 = some u' →
      u'.id = u.id ∧
      (p.orderNumber = none → u'.orderNumber = u.orderNumber) ∧
      (p.customerName = none → u'.customerName = u.customerName) ∧
      (p.customerEmail = none → u'.customerEmail = u.customerEmail) ∧
      (p.shippingAddress = none → u'.shippingAddress = u.shippingAddress) ∧
      (p.status = none → u'.status = u.status) ∧
      (p.notes = none → u'.notes = u.notes) ∧
      (p.organizationId = none → u'.organizationId = u.organizationId) ∧
      (p.createdBy = none → u'.createdBy = u.createdBy) ∧
      u'.createdAt = u.createdAt ∧
      u'.updatedAt = now) ∧
    (∀ s id p u u', mapGet s.orderItems id = some u →
        (updateOrderItem s id p).1 = some u' →
      u'.id = u.id ∧
      (p.orderId = none → u'.orderId = u.orderId) ∧
      (p.itemId = none → u'.itemId = u.itemId) ∧
      (p.quantity = none → u'.quantity = u.quantity) ∧
      (p.allocatedQuantity = none → u'.allocatedQuantity = u.allocatedQuantity) ∧
      (p.pickedQuantity = none → u'.pickedQuantity = u.pickedQuantity) ∧
      (p.status = none → u'.status = u.status)) ∧
    (∀ s id p u u', mapGet s.shipments id = some u →
        (updateShipment s id p).1 = some u' →
      u'.id = u.id ∧
      (p.orderId = none → u'.orderId = u.orderId) ∧
      (p.carrier = none → u'.carrier = u.carrier) ∧
      (p.trackingNumber = none → u'.trackingNumber = u.trackingNumber) ∧
      (p.shippingCost = none → u'.shippingCost = u.shippingCost) ∧
      (p.weight = none → u'.weight = u.weight) ∧
      (p.dimensions = none → u'.dimensions = u.dimensions) ∧
      (p.labelUrl = none → u'.labelUrl = u.labelUrl) ∧
      (p.status = none → u'.status = u.status) ∧
      (p.createdBy = none → u'.createdBy = u.createdBy) ∧
      u'.createdAt = u.createdAt) := by
  refine ⟨?_, ?_, ?_, ?_, ?_, ?_, ?_, ?_, ?_, ?_, ?_, ?_, ?_, ?_⟩
  · intro s id p u u' h h'
    simp only [updateUser, h, Option.some.injEq] at h'
    subst h'
    simp +contextual
  · intro s id p u u' h h'
    simp only [updateOrganization, h, Option.some.injEq] at h'
    subst h'
    simp +contextual
  · intro s id p u u' h h'
    simp only [updateRole, h, Option.some.injEq] at h'
    subst h'
    simp +contextual
  · intro s id p u u' h h'
    simp only [updateWarehouse, h, Option.some.injEq] at h'
    subst h'
    simp +contextual
  · intro s id p u u' h h'
    simp only [updateZone, h, Option.some.injEq] at h'
    subst h'
    simp +contextual
  · intro s id p u u' h h'
    simp only [updateBinType, h, Option.some.injEq] at h'
    subst h'
    simp +contextual
  · intro s id p u u' h h'
    simp only [updateBin, h, Option.some.injEq] at h'
    subst h'
    simp +contextual
  · intro s id p u u' h h'
    simp only [updateCategory, h, Option.some.injEq] at h'
    subst h'
    simp +contextual
  · intro s id p u u' h h'
    simp only [updateSupplier, h, Option.some.injEq] at h'
    subst h'
    simp +contextual
  · intro s id p u u' h h'
    simp only [updateItem, h, Option.some.injEq] at h'
    subst h'
    simp +contextual
  · intro s id p u u' h h'
    simp only [updateInventory, h, Option.some.injEq] at h'
    subst h'
    simp +contextual
  · intro s id p now u u' h h'
    simp only [updateOrder, h, Option.some.injEq] at h'
    subst h'
    simp +contextual
  · intro s id p u u' h h'
    simp only [updateOrderItem, h, Option.some.injEq] at h'
    subst h'
    simp +contextual
  · intro s id p u u' h h'
    simp only [updateShipment, h, Option.some.injEq] at h'
    subst h'
    simp +contextual

/-- Witness for the amended C6 at `sampleStore`, with one payload field
supplied per entity and all others absent. -/
theorem c6_witness :
    (mapGet sampleStore.users 1 = some sampleAdmin ∧
      (updateUser sampleStore 1 { password := some "hp2" }).1 =
        some { sampleAdmin with password := "hp2" } ∧
      ({ sampleAdmin with password := "hp2" } : User).username =
        sampleAdmin.username) ∧
    (mapGet sampleStore.orders 1 = some sampleOrder ∧
      (updateOrder sampleStore 1 { status := some "shipped" } 9).1 =
        some { sampleOrder with status := "shipped", updatedAt := 9 } ∧
      ({ sampleOrder with status := "shipped", updatedAt := 9 } : Order).orderNumber =
        sampleOrder.orderNumber ∧
      ({ sampleOrder with status := "shipped", updatedAt := 9 } : Order).updatedAt = 9) := by
  have h := c6_partial_update_preserves_fields
  have hu := h.1 sampleStore 1 { password := some "hp2" } sampleAdmin
    { sampleAdmin with password := "hp2" } rfl rfl
  have ho := h.2.2.2.2.2.2.2.2.2.2.2.1 sampleStore 1 { status := some "shipped" } 9
    sampleOrder { sampleOrder with status := "shipped", updatedAt := 9 } rfl rfl
  exact ⟨⟨rfl, rfl, hu.2.1 rfl⟩, ⟨rfl, rfl, ho.2.1 rfl, ho.2.2.2.2.2.2.2.2.2.2⟩⟩

/-- C5: for every entity type exposing a fetch-by-id, creating a record
and immediately fetching it by the returned id yields exactly the created
record, and the created record is the creation input plus the assigned id
(plus, for orders and shipments, the server-assigned timestamps). -/
theorem c5_create_get_round_trip :
    (∀ s (i : InsertUser),
      getUser (createUser s i).2 (createUser s i).1.id = some (createUser s i).1 ∧
      (createUser s i).1.id = s.currentIds.user ∧
      (createUser s i).1.username = i.username ∧
      (createUser s i).1.password = i.password ∧
      (createUser s i).1.email = i.email ∧
      (createUser s i).1.fullName = i.fullName ∧
      (createUser s i).1.isActive = i.isActive ∧
      (createUser s i).1.organizationId = i.organizationId ∧
      (createUser s i).1.roleId = i.roleId) ∧
    (∀ s (i : InsertOrganization),
      getOrganization (createOrganization s i).2 (createOrganization s i).1.id =
        some (createOrganization s i).1 ∧
      (createOrganization s i).1.id = s.currentIds.organization ∧
      (createOrganization s i).1.name = i.name ∧
      (createOrganization s i).1.description = i.description ∧
      (createOrganization s i).1.isActive = i.isActive ∧
      (createOrganization s i).1.parentId = i.parentId) ∧
    (∀ s (i : InsertRole),
      getRole (createRole s i).2 (createRole s i).1.id = some (createRole s i).1 ∧
      (createRole s i).1.id = s.currentIds.role ∧
      (createRole s i).1.name = i.name ∧
      (createRole s i).1.description = i.description ∧
      (createRole s i).1.permissions = i.permissions ∧
      (createRole s i).1.scope = i.scope) ∧
    (∀ s (i : InsertWarehouse),
      getWarehouse (createWarehouse s i).2 (createWarehouse s i).1.id =
        some (createWarehouse s i).1 ∧
      (createWarehouse s i).1.id = s.currentIds.warehouse ∧
      (createWarehouse s i).1.name = i.name ∧
      (createWarehouse s i).1.code = i.code ∧
      (createWarehouse s i).1.address = i.address ∧
      (createWarehouse s i).1.organizationId = i.organizationId) ∧
    (∀ s (i : InsertZone),
      getZone (createZone s i).2 (createZone s i).1.id = some (createZone s i).1 ∧
      (createZone s i).1.id = s.currentIds.zone ∧
      (createZone s i).1.name = i.name ∧
      (createZone s i).1.code = i.code ∧
      (createZone s i).1.warehouseId = i.warehouseId) ∧
    (∀ s (i : InsertBinType),
      getBinType (createBinType s i).2 (createBinType s i).1.id =
        some (createBinType s i).1 ∧
      (createBinType s i).1.id = s.currentIds.binType ∧
      (createBinType s i).1.name = i.name ∧
      (createBinType s i).1.maxWeight = i.maxWeight ∧
      (createBinType s i).1.maxVolume = i.maxVolume ∧
      (createBinType s i).1.dimensions = i.dimensions ∧
      (createBinType s i).1.organizationId = i.organizationId) ∧
    (∀ s (i : InsertBin),
      getBin (createBin s i).2 (createBin s i).1.id = some (createBin s i).1 ∧
      (createBin s i).1.id = s.currentIds.bin ∧
      (createBin s i).1.name = i.name ∧
      (createBin s i).1.code = i.code ∧
      (createBin s i).1.zoneId = i.zoneId ∧
      (createBin s i).1.binTypeId = i.binTypeId ∧
      (createBin s i).1.isActive = i.isActive) ∧
    (∀ s (i : InsertCategory),
      getCategory (createCategory s i).2 (createCategory s i).1.id =
        some (createCategory s i).1 ∧
      (createCategory s i).1.id = s.currentIds.category ∧
      (createCategory s i).1.name = i.name ∧
      (createCategory s i).1.description = i.description ∧
      (createCategory s i).1.organizationId = i.organizationId) ∧
    (∀ s (i : InsertSupplier),
      getSupplier (createSupplier s i).2 (createSupplier s i).1.id =
        some (createSupplier s i).1 ∧
      (createSupplier s i).1.id = s.currentIds.supplier ∧
      (createSupplier s i).1.name = i.name ∧
      (createSupplier s i).1.code = i.code ∧
      (createSupplier s i).1.contactInfo = i.contactInfo ∧
      (createSupplier s i).1.organizationId = i.organizationId) ∧
    (∀ s (i : InsertItem),
      getItem (createItem s i).2 (createItem s i).1.id = some (createItem s i).1 ∧
      (createItem s i).1.id = s.currentIds.item ∧
      (createItem s i).1.sku = i.sku ∧
      (createItem s i).1.name = i.name ∧
      (createItem s i).1.description = i.description ∧
      (createItem s i).1.barcode = i.barcode ∧
      (createItem s i).1.categoryId = i.categoryId ∧
      (createItem s i).1.supplierId = i.supplierId ∧
      (createItem s i).1.dimensions = i.dimensions ∧
      (createItem s i).1.weight = i.weight ∧
      (createItem s i).1.reorderPoint = i.reorderPoint ∧
      (createItem s i).1.reorderQuantity = i.reorderQuantity ∧
      (createItem s i).1.notes = i.notes ∧
      (createItem s i).1.organizationId = i.organizationId) ∧
    (∀ s (i : InsertOrder) now,
      getOrder (createOrder s i now).2 (createOrder s i now).1.id =
        some (createOrder s i now).1 ∧
      (createOrder s i now).1.id = s.currentIds.order ∧
      (createOrder s i now).1.orderNumber = i.orderNumber ∧
      (createOrder s i now).1.customerName = i.customerName ∧
      (createOrder s i now).1.customerEmail = i.customerEmail ∧
      (createOrder s i now).1.shippingAddress = i.shippingAddress ∧
      (createOrder s i now).1.status = i.status ∧
      (createOrder s i now).1.notes = i.notes ∧
      (createOrder s i now).1.organizationId = i.organizationId ∧
      (createOrder s i now).1.createdBy = i.createdBy ∧
      (createOrder s i now).1.createdAt = now ∧
      (createOrder s i now).1.updatedAt = now) ∧
    (∀ s (i : InsertShipment) now,
      getShipment (createShipment s i now).2 (createShipment s i now).1.id =
        some (createShipment s i now).1 ∧
      (createShipment s i now).1.id = s.currentIds.shipment ∧
      (createShipment s i now).1.orderId = i.orderId ∧
      (createShipment s i now).1.carrier = i.carrier ∧
      (createShipment s i now).1.trackingNumber = i.trackingNumber ∧
      (createShipment s i now).1.shippingCost = i.shippingCost ∧
      (createShipment s i now).1.weight = i.weight ∧
      (createShipment s i now).1.dimensions = i.dimensions ∧
      (createShipment s i now).1.labelUrl = i.labelUrl ∧
      (createShipment s i now).1.status = i.status ∧
      (createShipment s i now).1.createdBy = i.createdBy ∧
      (createShipment s i now).1.createdAt = now) := by
  refine ⟨fun s i => ?_, fun s i => ?_, fun s i => ?_, fun s i => ?_, fun s i => ?_,
    fun s i => ?_, fun s i => ?_, fun s i => ?_, fun s i => ?_, fun s i => ?_,
    fun s i now => ?_, fun s i now => ?_⟩ <;>
    simp [getUser, getOrganization, getRole, getWarehouse, getZone,
      getBinType, getBin, getCategory, getSupplier, getItem, getOrder, getShipment,
      createUser, createOrganization, createRole, createWarehouse, createZone,
      createBinType, createBin, createCategory, createSupplier, createItem,
      createOrder, createShipment, mapGet_mapSet_self]

/-- Order-item records carried by an `OrderCreateResponse` (empty for
the duplicate-order-number rejection). -/
def OrderCreateResponse.itemsOf : OrderCreateResponse → List OrderItem
  | .created _ items => items
  | .orderNumberExists => []

/-- Id of the order carried by an `OrderCreateResponse` (0 for the
duplicate-order-number rejection). -/
def OrderCreateResponse.orderIdOf : OrderCreateResponse → Nat
  | .created o _ => o.id
  | .orderNumberExists => 0

/-- The order-item creation loop returns one record per submitted line,
each referencing the requested order id. -/
theorem createOrderItemsLoop_spec (orderId : Nat) (items : List OrderItemInput) :
    ∀ s, (createOrderItemsLoop orderId s items).1.length = items.length ∧
      ∀ oi ∈ (createOrderItemsLoop orderId s items).1, oi.orderId = orderId := by
  induction items with
  | nil => intro s; simp [createOrderItemsLoop]
  | cons item rest ih =>
    intro s
    refine ⟨?_, ?_⟩
    · simp [createOrderItemsLoop, (ih _).1]
    · intro oi hmem
      simp only [createOrderItemsLoop, List.mem_cons] at hmem
      rcases hmem with h | h
      · subst h; rfl
      · exact (ih _).2 oi h

/-- C4: when order creation succeeds (the order number is not already
taken), the response carries exactly one order-item record per submitted
line item, every one of them referencing the id of the newly created
order, and the response is a 201. -/
theorem c4_order_items_match_submitted_lines (s : Store) (actorId : Nat)
    (orderData : InsertOrder) (items : List OrderItemInput) (now : Nat)
    (hnum : getOrderByNumber s orderData.orderNumber orderData.organizationId = none) :
    ((postOrdersRoute s actorId orderData items now).1).itemsOf.length = items.length ∧
    (∀ oi ∈ ((postOrdersRoute s actorId orderData items now).1).itemsOf,
      oi.orderId = ((postOrdersRoute s actorId orderData items now).1).orderIdOf) ∧
    ((postOrdersRoute s actorId orderData items now).1).status = 201 := by
  have hloop := createOrderItemsLoop_spec
    (createOrder s { orderData with createdBy := actorId } now).1.id items
    (createOrder s { orderData with createdBy := actorId } now).2
  refine ⟨?_, ?_, ?_⟩
  · simp only [postOrdersRoute, hnum]
    exact hloop.1
  · simp only [postOrdersRoute, hnum]
    exact hloop.2
  · simp [postOrdersRoute, hnum, OrderCreateResponse.status]

/-- An order insert payload whose order number is free in `sampleStore`. -/
def sampleInsertOrder : InsertOrder :=
  { orderNumber := "SO-2", customerName := "Acme", customerEmail := none,
    shippingAddress := sampleAddress, status := "pending", notes := none,
    organizationId := 1, createdBy := 9 }

/-- Witness for C4: two submitted line items yield two order-item rows
referencing the new order. -/
theorem c4_witness :
    getOrderByNumber sampleStore sampleInsertOrder.orderNumber
      sampleInsertOrder.organizationId = none ∧
    ((postOrdersRoute sampleStore 1 sampleInsertOrder [⟨1, 2⟩, ⟨1, 3⟩] 4).1).itemsOf.length = 2 ∧
    ((postOrdersRoute sampleStore 1 sampleInsertOrder [⟨1, 2⟩, ⟨1, 3⟩] 4).1).status = 201 := by
  have hnum : getOrderByNumber sampleStore sampleInsertOrder.orderNumber
      sampleInsertOrder.organizationId = none := by decide
  have h := c4_order_items_match_submitted_lines sampleStore 1 sampleInsertOrder
    [⟨1, 2⟩, ⟨1, 3⟩] 4 hnum
  exact ⟨hnum, h.1, h.2.2⟩

/-- C7, evaluated at the failing input: updating inventory record 1
(stored quantity 5) to quantity 3 writes an adjustment transaction whose
quantity is 3 — the new absolute quantity, since the handler reads the
record only after the merge and `q - (q - q) = q` — although the signed
delta between the new and previous quantity is `3 - 5 = -2 ≠ 3`. -/
theorem c7_adjustment_transaction_records_new_quantity_not_delta :
    mapGet sampleStore.inventory 1 = some sampleInventory ∧
    sampleInventory.quantity = 5 ∧
    (patchInventoryRoute sampleStore 1 1 { quantity := some 3 } none none 8).1 =
      .ok { sampleInventory with quantity := 3 } ∧
    mapValues ((patchInventoryRoute sampleStore 1 1 { quantity := some 3 }
        none none 8).2).inventoryTransactions =
      [{ id := 1, itemId := 1, binId := 1, quantity := 3, type := "adjustment",
         reference := none, notes := none, createdBy := 1, timestamp := 8 }] ∧
    (3 : Int) ≠ 3 - 5 := by
  refine ⟨rfl, rfl, by decide, by decide, by decide⟩

/-- A row of the CSV loop vanishes whenever no item of the requested
organization exists in the store. -/
theorem csvRows_empty_of_no_item (s : Store) (organizationId : Nat)
    (hnone : ∀ item ∈ mapValues s.items, item.organizationId ≠ organizationId) :
    ∀ l, csvRows s organizationId l = "" := by
  intro l
  induction l with
  | nil => rfl
  | cons inv rest ih =>
    cases hitem : getItem s inv.itemId with
    | none =>
      cases hbin : getBin s inv.binId <;> simp [csvRows, hitem, hbin, ih]
    | some item =>
      cases hbin : getBin s inv.binId with
      | none => simp [csvRows, hitem, hbin, ih]
      | some bin =>
        have hne : item.organizationId ≠ organizationId :=
          hnone item (mapGet_mem_mapValues hitem)
        simp [csvRows, hitem, hbin, ih, hne]

/-- C8: for an organization owning zero items, the inventory CSV export
is exactly the fixed header row with no data rows, whatever inventory the
store holds for other organizations. -/
theorem c8_csv_export_header_only (s : Store) (organizationId : Nat)
    (hnone : ∀ item ∈ mapValues s.items, item.organizationId ≠ organizationId) :
    inventoryCsvRoute s organizationId =
      "SKU,Name,Category,Warehouse,Zone,Bin,Quantity,Allocated,Available\n" := by
  have h := csvRows_empty_of_no_item s organizationId hnone
    (listInventory s none none)
  simp [inventoryCsvRoute, h, csvHeader]

/-- Witness for C8: `sampleStore` holds inventory for organization 1, and
the export for organization 2 is the bare header. -/
theorem c8_witness :
    sampleItem.organizationId = 1 ∧
    inventoryCsvRoute sampleStore 2 =
      "SKU,Name,Category,Warehouse,Zone,Bin,Quantity,Allocated,Available\n" :=
  ⟨rfl, c8_csv_export_header_only sampleStore 2 (by decide)⟩

/-- C9: every user payload the user CRUD routes return is the
password-free sanitization of the corresponding stored record — the list
route maps `sanitizeUser` over the stored users, the get route returns
the sanitized stored record, and the create and patch routes return the
sanitization of exactly the record they stored (which is still readable,
password included, directly from the store). -/
theorem c9_user_routes_strip_password :
    (∀ s organizationId, listUsersRoute s organizationId =
      (listUsers s organizationId).map sanitizeUser) ∧
    (∀ s id u, getUser s id = some u → getUserRoute s id = .ok (sanitizeUser u)) ∧
    (∀ s actorId userData hash now,
      getUserByUsername s userData.username = none →
      (createUserRoute s actorId userData hash now).1 =
        .created (sanitizeUser
          (createUser s { userData with password := hash userData.password }).1) ∧
      getUser (createUserRoute s actorId userData hash now).2
          (createUser s { userData with password := hash userData.password }).1.id =
        some (createUser s { userData with password := hash userData.password }).1) ∧
    (∀ s actorId id body hash now u u',
      getUser s id = some u →
      (updateUser s id (hashedUserPatch body hash)).1 = some u' →
      (patchUserRoute s actorId id body hash now).1 = .ok (sanitizeUser u') ∧
      getUser (patchUserRoute s actorId id body hash now).2 id = some u') := by
  refine ⟨fun s organizationId => rfl, fun s id u h => by simp [getUserRoute, h],
    ?_, ?_⟩
  · intro s actorId userData hash now h
    refine ⟨by simp [createUserRoute, h], ?_⟩
    simp only [createUserRoute, h]
    simp [getUser, createUser, createActivityLog, mapGet_mapSet_self]
  · intro s actorId id body hash now u u' h h'
    have hget : mapGet s.users id = some u := h
    simp only [updateUser, hget, Option.some.injEq] at h'
    subst h'
    constructor
    · simp [patchUserRoute, h, updateUser, hget]
    · simp [patchUserRoute, h, updateUser, hget, getUser, createActivityLog,
        mapGet_mapSet_self]

/-- An insert payload with a fresh username. -/
def sampleInsertBob : InsertUser :=
  { username := "bob", password := "pw2", email := "bob@example.com",
    fullName := "Bob B", isActive := true, organizationId := some 1,
    roleId := some 1 }

/-- Witness for C9 at `sampleStore`: list, get, create and patch
responses all carry sanitized records. -/
theorem c9_witness :
    listUsersRoute sampleStore none = [sanitizeUser sampleAdmin] ∧
    getUserRoute sampleStore 1 = .ok (sanitizeUser sampleAdmin) ∧
    (createUserRoute sampleStore 1 sampleInsertBob sampleHash 5).1 =
      .created (sanitizeUser
        (createUser sampleStore
          { sampleInsertBob with password := sampleHash sampleInsertBob.password }).1) ∧
    (patchUserRoute sampleStore 1 1 { fullName := some "Root" } sampleHash 5).1 =
      .ok (sanitizeUser { sampleAdmin with fullName := "Root" }) := by
  have h := c9_user_routes_strip_password
  refine ⟨(h.1 sampleStore none).trans rfl, h.2.1 sampleStore 1 sampleAdmin rfl, ?_, ?_⟩
  · exact (h.2.2.1 sampleStore 1 sampleInsertBob sampleHash 5 (by decide)).1
  · exact (h.2.2.2 sampleStore 1 1 { fullName := some "Root" } sampleHash 5
      sampleAdmin { sampleAdmin with fullName := "Root" } rfl rfl).1

/-- When the filter keeps exactly one element, `find?` returns it. -/
theorem find?_of_filter_eq_singleton {p : α → Bool} :
    ∀ {l : List α} {a : α}, l.filter p = [a] → l.find? p = some a := by
  intro l a h
  induction l with
  | nil => simp at h
  | cons b t ih =>
    by_cases hb : p b
    · rw [List.filter_cons_of_pos hb] at h
      rw [List.find?_cons_of_pos _ hb]
      exact congrArg some (List.cons.injEq .. ▸ h).1
    · rw [List.filter_cons_of_neg hb] at h
      rw [List.find?_cons_of_neg _ hb]
      exact ih h

/-- In a key-consistent map every value's own key occurs among the keys. -/
theorem key_mem_of_mem_mapValues {m : List (Nat × α)} {f : α → Nat}
    (hkeys : ∀ e ∈ m, f e.2 = e.1) {v : α} (hv : v ∈ mapValues m) :
    f v ∈ m.map Prod.fst := by
  induction m with
  | nil => simp [mapValues] at hv
  | cons e t ih =>
    obtain ⟨k, w⟩ := e
    simp only [mapValues_cons, List.mem_cons] at hv
    rcases hv with rfl | hv
    · simp [hkeys (k, v) (by simp)]
    · simp only [List.map_cons, List.mem_cons]
      exact Or.inr (ih (fun e he => hkeys e (List.mem_cons_of_mem _ he)) hv)

/-- In a key-consistent, duplicate-free map, looking a value up by its
own key finds exactly that value. -/
theorem mapGet_of_keyConsistent {m : List (Nat × α)} {f : α → Nat}
    (hkeys : ∀ e ∈ m, f e.2 = e.1) (hnodup : (m.map Prod.fst).Nodup)
    {v : α} (hv : v ∈ mapValues m) : mapGet m (f v) = some v := by
  induction m with
  | nil => simp [mapValues] at hv
  | cons e t ih =>
    obtain ⟨k, w⟩ := e
    simp only [List.map_cons, List.nodup_cons] at hnodup
    simp only [mapValues_cons, List.mem_cons] at hv
    rcases hv with rfl | hv
    · have hk : f v = k := hkeys (k, v) (by simp)
      simp [mapGet, hk]
    · have hne : k ≠ f v := by
        intro heq
        exact hnodup.1 (heq ▸ key_mem_of_mem_mapValues
          (fun e he => hkeys e (List.mem_cons_of_mem _ he)) hv)
      simp only [mapGet_cons, hne, if_false]
      exact ih (fun e he => hkeys e (List.mem_cons_of_mem _ he)) hnodup.2 hv

/-- Replacing the unique filter-surviving value of a key-consistent,
duplicate-free map (in place, by its key) with another value satisfying
the filter leaves that value as the unique survivor. -/
theorem filter_mapValues_mapSet_singleton {m : List (Nat × α)} {f : α → Nat}
    {p : α → Bool} {ex v : α}
    (hkeys : ∀ e ∈ m, f e.2 = e.1) (hnodup : (m.map Prod.fst).Nodup)
    (hfil : (mapValues m).filter p = [ex]) (hv : p v = true) :
    (mapValues (mapSet m (f ex) v)).filter p = [v] := by
  induction m with
  | nil => simp [mapValues] at hfil
  | cons e t ih =>
    obtain ⟨k, w⟩ := e
    simp only [List.map_cons, List.nodup_cons] at hnodup
    simp only [mapValues_cons] at hfil
    by_cases hw : p w
    · rw [List.filter_cons_of_pos hw] at hfil
      have hwex : w = ex := (List.cons.injEq .. ▸ hfil).1
      have hrest : (mapValues t).filter p = [] := (List.cons.injEq .. ▸ hfil).2
      have hk : k = f ex := by
        have hke := hkeys (k, w) (by simp)
        simp only at hke
        rw [hwex] at hke
        exact hke.symm
      subst hk
      have hset : mapSet ((f ex, w) :: t) (f ex) v = (f ex, v) :: t := by
        simp [mapSet]
      rw [hset, mapValues_cons, List.filter_cons_of_pos hv, hrest]
    · rw [List.filter_cons_of_neg hw] at hfil
      have hexmem : ex ∈ mapValues t := by
        have hx : ex ∈ (mapValues t).filter p := by simp [hfil]
        exact List.mem_of_mem_filter hx
      have hne : k ≠ f ex := by
        intro heq
        exact hnodup.1 (heq ▸ key_mem_of_mem_mapValues
          (fun e he => hkeys e (List.mem_cons_of_mem _ he)) hexmem)
      simp only [mapSet, hne, if_false, mapValues_cons]
      rw [List.filter_cons_of_neg hw]
      exact ih (fun e he => hkeys e (List.mem_cons_of_mem _ he)) hnodup.2 hfil

/-- C2: creating inventory for an (itemId, binId) pair that already has
exactly one row in a key-consistent, duplicate-free store does not add a
second row: the pair still has exactly one row, its quantity is the
previous quantity plus the incoming quantity and its allocated quantity
is the sum of the two allocated quantities, the total number of inventory
rows is unchanged, and the merged row is what the 201 response carries. -/
theorem c2_inventory_create_merges_existing_pair
    (s : Store) (actorId : Nat) (d : InsertInventory) (reference notes : Option String)
    (now : Nat) (ex : Inventory)
    (hkeys : ∀ e ∈ s.inventory, e.2.id = e.1)
    (hnodup : (s.inventory.map Prod.fst).Nodup)
    (hfil : (mapValues s.inventory).filter
      (fun inv => inv.itemId == d.itemId && inv.binId == d.binId) = [ex]) :
    (mapValues ((postInventoryRoute s actorId d reference notes now).2).inventory).filter
      (fun inv => inv.itemId == d.itemId && inv.binId == d.binId) =
      [{ ex with quantity := ex.quantity + d.quantity,
                 allocatedQuantity := ex.allocatedQuantity + d.allocatedQuantity }] ∧
    ((postInventoryRoute s actorId d reference notes now).2).inventory.length =
      s.inventory.length ∧
    (postInventoryRoute s actorId d reference notes now).1 =
      .created { ex with
        quantity := ex.quantity + d.quantity,
        allocatedQuantity := ex.allocatedQuantity + d.allocatedQuantity } := by
  have hfind : getInventory s d.itemId d.binId = some ex := by
    simp only [getInventory]
    exact find?_of_filter_eq_singleton hfil
  have hx : ex ∈ (mapValues s.inventory).filter
      (fun inv => inv.itemId == d.itemId && inv.binId == d.binId) := by
    simp [hfil]
  have hexmem : ex ∈ mapValues s.inventory := List.mem_of_mem_filter hx
  have hpex : (fun inv => inv.itemId == d.itemId && inv.binId == d.binId) ex = true :=
    (List.mem_filter.mp hx).2
  have hget : mapGet s.inventory ex.id = some ex :=
    mapGet_of_keyConsistent (f := Inventory.id) hkeys hnodup hexmem
  have hkeymem : ex.id ∈ s.inventory.map Prod.fst :=
    key_mem_of_mem_mapValues (f := Inventory.id) hkeys hexmem
  refine ⟨?_, ?_, ?_⟩
  · simp only [postInventoryRoute, hfind, updateInventory, hget,
      createInventoryTransaction, createActivityLog]
    exact filter_mapValues_mapSet_singleton (f := Inventory.id) hkeys hnodup hfil hpex
  · simp only [postInventoryRoute, hfind, updateInventory, hget,
      createInventoryTransaction, createActivityLog]
    exact length_mapSet_of_mem s.inventory ex.id _ hkeymem
  · simp only [postInventoryRoute, hfind, updateInventory, hget,
      createInventoryTransaction, createActivityLog]
    simp

/-- A second insertion for the (item 1, bin 1) pair of `sampleStore`. -/
def sampleInsertInventory : InsertInventory :=
  { itemId := 1, binId := 1, quantity := 7, allocatedQuantity := 2 }

/-- Witness for C2: merging 7 units (2 allocated) into the stored row of
5 units (1 allocated) leaves one row with 12 units, 3 allocated. -/
theorem c2_witness :
    (mapValues sampleStore.inventory).filter
      (fun inv => inv.itemId == sampleInsertInventory.itemId &&
        inv.binId == sampleInsertInventory.binId) = [sampleInventory] ∧
    (mapValues ((postInventoryRoute sampleStore 1 sampleInsertInventory
        none none 6).2).inventory).filter
      (fun inv => inv.itemId == sampleInsertInventory.itemId &&
        inv.binId == sampleInsertInventory.binId) =
      [{ sampleInventory with quantity := 12, allocatedQuantity := 3 }] ∧
    ((postInventoryRoute sampleStore 1 sampleInsertInventory none none 6).2).inventory.length =
      sampleStore.inventory.length := by
  have h := c2_inventory_create_merges_existing_pair sampleStore 1 sampleInsertInventory
    none none 6 sampleInventory (by decide) (by decide) (by decide)
  exact ⟨by decide, h.1, h.2.1⟩

end Wms
